import Mathlib

/-!
# Gradient routing (`gr.c`): a shallow embedding and its verified properties

The development embeds the protocol callbacks of `src/gr.c` (`setnode`,
`bootstrap`, `tx_build`, `tx_data`, `tx_forward`, `add_seq`, `check_seq`, `rx`)
as pure functions over an explicit node state.

Modelling conventions.

* A C `int` is an `Int`.  Signed overflow is undefined behaviour in C, so the
  embedding describes the executions in which no `++` or `+ 1` overflows; on
  those executions mathematical integers and C integers agree.
* A `uint64_t` is a `Nat`, and every `uint64_t` addition or subtraction of the
  source is reduced modulo `2^64` (`u64`).
* A `double` is only ever copied by the embedded functions, never computed
  with; it is carried as an uninterpreted value (`double`).
* The arrays `p[BUFFER]` and `seq[SEQUENCE]` are lists; a node state is
  well formed (`node_wf`) when both have their declared ten slots.
* The simulator services (`get_time`, `get_random_time_range`, `SET_HEADER`,
  `get_node_position`, the energy `IOCTL`) are inputs, gathered in `env`.
  `scheduler_add_callback`, `TX` and `printf` are outputs, returned as a list
  of `effect`s in program order.
-/

namespace GR

/-! ## Constants (`gr.c` lines 64-80) -/

@[simp] def SENSOR : Int := 0
@[simp] def SINK : Int := 1

@[simp] def STATIC : Int := 0
@[simp] def MOVING : Int := 1

@[simp] def BUILD : Int := 0
@[simp] def DATA : Int := 1

@[simp] def NODE_OFF : Int := 0
@[simp] def NODE_ON : Int := 1

@[simp] def MES_NO : Int := -1
@[simp] def MES_BU : Int := 0

@[simp] def BUFFER : Int := 10
@[simp] def SEQUENCE : Int := 10

/-! ## Data model (`gr.c` lines 86-134) -/

/-- A C `double`, carried as an uninterpreted 64-bit pattern. -/
abbrev double := Nat

/-- Reduction of a `uint64_t` result modulo `2^64`. -/
def u64 (n : Nat) : Nat := n % 2 ^ 64

/-- The `struct entitydata` of the source: data common to all nodes. -/
structure entitydata where
  Delay : Nat
  Period : Nat
  Jitter : Nat
  TimeSpace : Nat
  packet_seq : Int
deriving DecidableEq, Repr

/-- The `struct packet_header` of the source. -/
structure packet_header where
  p_src : Int
  p_dst : Int
  p_type : Int
  p_seqno : Int
  p_depth : Int
  p_origin : Int
  p_status : Int
  p_pos_x : double
  p_pos_y : double
  p_stamp : Nat
deriving DecidableEq, Repr, Inhabited

/-- The `struct _node_private` of the source.  The field `from` of the source
is `from_` here; `overhead` (a size table of the lower layers) is not part of
the protocol state. -/
structure node_private where
  seqno : Int
  depth : Int
  from_ : Int
  type : Int
  status : Int
  msg_status : Int
  node_status : Int
  p : List packet_header
  seq : List Int
  buffer_pointer : Int
  seq_pointer : Int
  no_packet_sent : Int
  no_packet_recv : Int
  no_packet_drop : Int
  distance : double
  speed : double
  timestamp : Nat
  cosx : double
  sinx : double
deriving DecidableEq, Repr

/-- A node state whose two arrays have the ten slots the source declares. -/
def node_wf (nd : node_private) : Prop :=
  (nd.p.length : Int) = BUFFER ∧ (nd.seq.length : Int) = SEQUENCE

instance (nd : node_private) : Decidable (node_wf nd) := by
  unfold node_wf; exact inferInstance

/-- The callbacks a node hands to `scheduler_add_callback`. -/
inductive callback where
  | tx_build
  | tx_data
  | tx_forward
deriving DecidableEq, Repr

/-- The outputs of a protocol function, in program order: a call of
`scheduler_add_callback` (its time and callback), a call of `TX` (the header of
the packet sent), a call of `printf` (the integer arguments passed). -/
inductive effect where
  | schedule (time : Nat) (cb : callback)
  | TX (header : packet_header)
  | printf (args : List Int)
deriving DecidableEq, Repr

/-- The simulator services read during one invocation of a protocol function:
`get_time()`, `get_random_time_range(lo, hi)`, the value returned by
`SET_HEADER`, `get_node_position(c->node)` and the energy `IOCTL`. -/
structure env where
  time : Nat
  random : Nat → Nat → Nat
  set_header : Int
  pos_x : double
  pos_y : double
  energy : Int

/-- The packets handed to `TX` among a list of effects. -/
def transmitted : List effect → List packet_header
  | [] => []
  | effect.TX h :: es => h :: transmitted es
  | _ :: es => transmitted es

/-- The callbacks handed to `scheduler_add_callback` among a list of effects. -/
def scheduled : List effect → List callback
  | [] => []
  | effect.schedule _ cb :: es => cb :: scheduled es
  | _ :: es => scheduled es

/-! ## Array access -/

/-- An array read `a[i]` with a C `int` index; an index outside the array
(undefined in C) reads `d`. -/
def arr_get {α : Type} (a : List α) (i : Int) (d : α) : α :=
  if 0 ≤ i then a.getD i.toNat d else d

/-- An array write `a[i] = v` with a C `int` index; an index outside the array
(undefined in C) leaves the array as it is. -/
def arr_set {α : Type} (a : List α) (i : Int) (v : α) : List α :=
  if 0 ≤ i then a.set i.toNat v else a

/-- The ten field-by-field assignments that copy one `packet_header` into
another (`rx` lines 617-626, `tx_forward` lines 495-504). -/
def copy_fields (src : packet_header) : packet_header :=
  { p_src := src.p_src
    p_dst := src.p_dst
    p_type := src.p_type
    p_seqno := src.p_seqno
    p_depth := src.p_depth
    p_origin := src.p_origin
    p_status := src.p_status
    p_stamp := src.p_stamp
    p_pos_x := src.p_pos_x
    p_pos_y := src.p_pos_y }

/-! ## Node set-up (`setnode`, `bootstrap`) -/

/-- The function `setnode` (lines 230-285).  `raw` is the freshly allocated,
uninitialised block: the fields `setnode` does not assign (`p`, `seq`,
`no_packet_drop`) keep whatever it holds.  `type_param` is the value of the
`type` parameter of the configuration, when there is one; the path on which
the parameter cannot be read frees the block and yields no node. -/
def setnode (c_node : Int) (type_param : Option Int) (raw : node_private) : node_private :=
  let nd : node_private :=
    { raw with
      seqno := -1
      depth := -1
      from_ := -1
      status := STATIC
      msg_status := MES_NO
      type := SENSOR
      node_status := NODE_OFF
      buffer_pointer := 0
      seq_pointer := 0
      no_packet_sent := 0
      no_packet_recv := 0
      distance := 0
      speed := 0
      timestamp := 0
      cosx := 0
      sinx := 0 }
  let nd := match type_param with
    | some t => { nd with type := t }
    | none => nd
  if c_node = 0 then { nd with type := SINK } else nd

/-- The function `bootstrap` (lines 315-351). -/
def bootstrap (ent : entitydata) (e : env) (c_node : Int) (nd : node_private) :
    node_private × List effect :=
  if nd.type = SINK then
    ({ nd with seqno := 0, from_ := c_node, depth := 0, node_status := NODE_ON },
     [effect.schedule (u64 (e.time + 0)) callback.tx_build])
  else if c_node = 1 then
    (nd, [effect.schedule
            (u64 (u64 (u64 (e.time + ent.Period) + e.random 0 ent.Jitter)
              + e.random 0 ent.TimeSpace)) callback.tx_data])
  else (nd, [])

/-! ## Transmission callbacks -/

/-- The function `tx_build` (lines 366-405): returned value, new node state,
effects. -/
def tx_build (ent : entitydata) (e : env) (c_node : Int) (nd : node_private) :
    Int × node_private × List effect :=
  if e.set_header = -1 then (-1, nd, [])
  else
    let header : packet_header :=
      { p_src := c_node
        p_dst := -1
        p_type := BUILD
        p_seqno := nd.seqno
        p_depth := nd.depth
        p_stamp := e.time
        p_origin := c_node
        p_pos_x := e.pos_x
        p_pos_y := e.pos_y
        p_status := nd.status }
    let nd1 := { nd with msg_status := MES_NO }
    if nd1.type = SINK then
      (1, { nd1 with seqno := nd1.seqno + 1 },
       [effect.TX header,
        effect.schedule (u64 (e.time + u64 (10 * ent.Period))) callback.tx_build])
    else (1, nd1, [effect.TX header])

/-- The function `tx_data` (lines 407-455): returned value, new entity data,
new node state, effects. -/
def tx_data (ent : entitydata) (e : env) (c_node : Int) (nd : node_private) :
    Int × entitydata × node_private × List effect :=
  if nd.node_status ≠ NODE_ON then
    (1, ent, nd,
     [effect.schedule (u64 (u64 (e.time + ent.Period) + e.random 0 ent.Jitter))
        callback.tx_data])
  else if e.set_header = -1 then (-1, ent, nd, [])
  else
    let nd1 := { nd with no_packet_sent := nd.no_packet_sent + 1 }
    let ent1 := { ent with packet_seq := ent.packet_seq + 1 }
    let header : packet_header :=
      { p_src := c_node
        p_dst := -1
        p_type := DATA
        p_depth := nd.depth
        p_stamp := e.time
        p_origin := c_node
        p_pos_x := e.pos_x
        p_pos_y := e.pos_y
        p_status := nd.status
        p_seqno := ent1.packet_seq }
    (1, ent1, nd1,
     [effect.TX header,
      effect.schedule (u64 (u64 (e.time + ent.Period) + e.random 0 ent.Jitter))
        callback.tx_data])

/-- The loop `for (i = 0; i < buffer_pointer; i++) p[i] = p[i+1]` of
`tx_forward` (lines 494-505): `n` iterations are left and the next one is at
index `i`. -/
def shift_loop (p : List packet_header) : Nat → Nat → List packet_header
  | _, 0 => p
  | i, n + 1 =>
    shift_loop (arr_set p (i : Int) (copy_fields (arr_get p ((i : Int) + 1) default)))
      (i + 1) n

/-- The function `tx_forward` (lines 457-519): returned value, new node state,
effects. -/
def tx_forward (ent : entitydata) (e : env) (c_node : Int) (nd : node_private) :
    Int × node_private × List effect :=
  let nd1 := { nd with buffer_pointer := nd.buffer_pointer - 1 }
  if nd1.buffer_pointer < 0 then (-1, { nd1 with buffer_pointer := 0 }, [])
  else if e.set_header = -1 then (-1, nd1, [])
  else
    let header : packet_header :=
      { p_src := c_node
        p_dst := -1
        p_type := DATA
        p_depth := nd1.depth
        p_seqno := (arr_get nd1.p 0 default).p_seqno
        p_origin := (arr_get nd1.p 0 default).p_origin
        p_pos_x := (arr_get nd1.p 0 default).p_pos_x
        p_pos_y := (arr_get nd1.p 0 default).p_pos_y
        p_status := nd1.status
        p_stamp := (arr_get nd1.p 0 default).p_stamp }
    let nd2 :=
      if nd1.buffer_pointer > 0 then
        { nd1 with p := shift_loop nd1.p 0 nd1.buffer_pointer.toNat }
      else nd1
    let sched :=
      if nd2.buffer_pointer > 0 then
        [effect.schedule (u64 (e.time + e.random 0 ent.Jitter)) callback.tx_forward]
      else []
    (1, nd2, sched ++ [effect.TX header])

/-- The function `my_energy` (lines 526-534). -/
def my_energy (e : env) (c_node : Int) : Int :=
  if c_node = 0 then 100 else e.energy

/-! ## Sequence cache (`add_seq`, `check_seq`) -/

/-- The function `add_seq` (lines 539-549).  The remainder is taken of a value
that is at least `SEQUENCE`, where the truncating `%` of C and the `%` of
`Int` agree. -/
def add_seq (nd : node_private) (s : Int) : node_private :=
  let sp := nd.seq_pointer + 1
  let sp := if sp ≥ SEQUENCE then sp % SEQUENCE else sp
  { nd with seq_pointer := sp, seq := arr_set nd.seq sp s }

/-- The counting loop of `check_seq` (lines 556-560): the value of `helper`
after the slots `0 .. n-1` have been compared with `s`. -/
def check_seq_helper (seq : List Int) (s : Int) : Nat → Int
  | 0 => 0
  | n + 1 =>
    if arr_get seq (n : Int) 0 = s then check_seq_helper seq s n + 1
    else check_seq_helper seq s n

/-- The function `check_seq` (lines 551-566): `-1` when `s` is in the table,
`1` when it is not. -/
def check_seq (nd : node_private) (s : Int) : Int :=
  if check_seq_helper nd.seq s SEQUENCE.toNat > 0 then -1 else 1

/-! ## Reception (`rx`) -/

/-- The two acceptance tests of the `BUILD` case of `rx` (lines 584-596): the
node state after them and the final value of `helper`. -/
def rx_build_update (nd : node_private) (header : packet_header) : node_private × Int :=
  let nd0 := { nd with node_status := NODE_ON }
  let helper : Int := 0
  let (nd1, helper) :=
    if nd0.seqno < header.p_seqno then
      ({ nd0 with seqno := header.p_seqno, depth := header.p_depth + 1, from_ := header.p_src },
       helper + 1)
    else (nd0, helper)
  if nd1.depth > header.p_depth + 1 then
    ({ nd1 with seqno := header.p_seqno, depth := header.p_depth + 1, from_ := header.p_src },
     helper + 1)
  else (nd1, helper)

/-- The `BUILD` case of `rx` (lines 583-601). -/
def rx_build (ent : entitydata) (e : env) (nd : node_private) (header : packet_header) :
    node_private × List effect :=
  let (nd2, helper) := rx_build_update nd header
  if helper > 0 ∧ nd2.msg_status = MES_NO then
    ({ nd2 with msg_status := MES_BU },
     [effect.schedule (u64 (e.time + e.random 0 ent.Delay)) callback.tx_build])
  else (nd2, [])

/-- The value of the local variable `fwd` of `rx` after lines 604-614:
`0` do not forward, `1` forward, `2` sink, `3` drop. -/
def rx_data_fwd (nd : node_private) (header : packet_header) : Int :=
  if header.p_depth > nd.depth ∧ nd.node_status = NODE_ON then
    if nd.buffer_pointer < BUFFER - 1 ∧ check_seq nd header.p_seqno = 1 then
      if nd.type = SENSOR then 1 else 2
    else 3
  else 0

/-- The `DATA` case of `rx` (lines 602-654). -/
def rx_data (ent : entitydata) (e : env) (c_node : Int) (nd : node_private)
    (header : packet_header) : node_private × List effect :=
  let fwd := rx_data_fwd nd header
  let (nd1, eff1) :=
    if fwd = 1 then
      let nd_a := { nd with p := arr_set nd.p nd.buffer_pointer (copy_fields header) }
      let nd_b := { nd_a with buffer_pointer := nd_a.buffer_pointer + 1 }
      let nd_c := { nd_b with no_packet_recv := nd_b.no_packet_recv + 1 }
      let nd_d := add_seq nd_c header.p_seqno
      (nd_d,
       [effect.schedule (u64 (e.time + e.random 0 ent.Delay)) callback.tx_forward,
        effect.printf [(e.time : Int), header.p_origin,
          ((u64 (e.time + (2 ^ 64 - header.p_stamp % 2 ^ 64)) : Nat) : Int),
          header.p_seqno, header.p_src, c_node, my_energy e c_node]])
    else (nd, [])
  let (nd2, eff2) :=
    if fwd = 2 then
      ({ nd1 with no_packet_recv := nd1.no_packet_recv + 1 },
       [effect.printf [(e.time : Int), header.p_origin,
          ((u64 (e.time + (2 ^ 64 - header.p_stamp % 2 ^ 64)) : Nat) : Int),
          header.p_seqno, header.p_src]])
    else (nd1, [])
  let nd3 :=
    if fwd = 3 then { nd2 with no_packet_drop := nd2.no_packet_drop + 1 } else nd2
  (nd3, eff1 ++ eff2)

/-- The function `rx` (lines 571-660): the `switch` on the packet type. -/
def rx (ent : entitydata) (e : env) (c_node : Int) (nd : node_private)
    (header : packet_header) : node_private × List effect :=
  if header.p_type = BUILD then rx_build ent e nd header
  else if header.p_type = DATA then rx_data ent e c_node nd header
  else (nd, [])

/-- The pending records of the Forward Buffer, head first: the slots
`p[0] .. p[buffer_pointer - 1]`. -/
def buffer (nd : node_private) : List packet_header :=
  nd.p.take nd.buffer_pointer.toNat

/-! ## One node under a sequence of events -/

/-- An event at one node: the reception of a packet, or the firing of the
`tx_forward` callback, each with the simulator services it reads. -/
inductive node_event where
  | rx (e : env) (header : packet_header)
  | tx_forward (e : env)

/-- The node state after one event. -/
def node_step (ent : entitydata) (c_node : Int) (nd : node_private) :
    node_event → node_private
  | node_event.rx e header => (rx ent e c_node nd header).1
  | node_event.tx_forward e => (tx_forward ent e c_node nd).2.1

/-- The node state after a sequence of events, oldest first. -/
def node_run (ent : entitydata) (c_node : Int) (nd : node_private) :
    List node_event → node_private
  | [] => nd
  | ev :: evs => node_run ent c_node (node_step ent c_node nd ev) evs

/-- The `(origin, sequence number)` pair of a header. -/
def origin_seq (h : packet_header) : Int × Int := (h.p_origin, h.p_seqno)

/-- The pairs enqueued by one event: the pair of the received packet when `rx`
takes the `fwd == 1` branch, nothing otherwise. -/
def enqueued_by (nd : node_private) : node_event → List (Int × Int)
  | node_event.rx _ header =>
    if header.p_type = DATA ∧ rx_data_fwd nd header = 1 then [origin_seq header] else []
  | node_event.tx_forward _ => []

/-- The pairs sent by one event: those of the packets `tx_forward` hands to
`TX`. -/
def sent_by (ent : entitydata) (c_node : Int) (nd : node_private) :
    node_event → List (Int × Int)
  | node_event.rx _ _ => []
  | node_event.tx_forward e => (transmitted (tx_forward ent e c_node nd).2.2).map origin_seq

/-- All pairs enqueued during a sequence of events, in order. -/
def enqueued_log (ent : entitydata) (c_node : Int) (nd : node_private) :
    List node_event → List (Int × Int)
  | [] => []
  | ev :: evs => enqueued_by nd ev ++ enqueued_log ent c_node (node_step ent c_node nd ev) evs

/-- All pairs sent by drains during a sequence of events, in order. -/
def sent_log (ent : entitydata) (c_node : Int) (nd : node_private) :
    List node_event → List (Int × Int)
  | [] => []
  | ev :: evs =>
    sent_by ent c_node nd ev ++ sent_log ent c_node (node_step ent c_node nd ev) evs

/-- An event that is not a drain whose `SET_HEADER` fails. -/
def drain_ok : node_event → Prop
  | node_event.rx _ _ => True
  | node_event.tx_forward e => e.set_header ≠ -1

/-! ## A network of nodes -/

/-- A network: the entity data, the node states (node `i` at index `i`, the
sink at index `0`) and every packet broadcast so far. -/
structure net where
  ent : entitydata
  nodes : List node_private
  sent : List packet_header

/-- A step of the network: a callback fires at node `i`, or node `i` receives
the `k`-th packet broadcast so far. -/
inductive action where
  | tx_build (i : Nat) (e : env)
  | tx_data (i : Nat) (e : env)
  | tx_forward (i : Nat) (e : env)
  | rx (i : Nat) (e : env) (k : Nat)

/-- The network after one step.  A step that names a node or a packet that does
not exist changes nothing. -/
def net_step (n : net) : action → net
  | action.tx_build i e =>
    match n.nodes[i]? with
    | some nd =>
      let r := tx_build n.ent e (i : Int) nd
      { n with nodes := n.nodes.set i r.2.1, sent := n.sent ++ transmitted r.2.2 }
    | none => n
  | action.tx_data i e =>
    match n.nodes[i]? with
    | some nd =>
      let r := tx_data n.ent e (i : Int) nd
      { ent := r.2.1, nodes := n.nodes.set i r.2.2.1, sent := n.sent ++ transmitted r.2.2.2 }
    | none => n
  | action.tx_forward i e =>
    match n.nodes[i]? with
    | some nd =>
      let r := tx_forward n.ent e (i : Int) nd
      { n with nodes := n.nodes.set i r.2.1, sent := n.sent ++ transmitted r.2.2 }
    | none => n
  | action.rx i e k =>
    match n.nodes[i]?, n.sent[k]? with
    | some nd, some header =>
      let r := rx n.ent e (i : Int) nd header
      { n with nodes := n.nodes.set i r.1, sent := n.sent ++ transmitted r.2 }
    | _, _ => n

/-- The network after a sequence of steps, oldest first. -/
def net_run (n : net) : List action → net
  | [] => n
  | a :: as => net_run (net_step n a) as

/-- The nodes `first, first + 1, ...` after `setnode` (no `type` parameter) and
`bootstrap`, one per allocated block. -/
def init_nodes (ent : entitydata) (e : env) : Nat → List node_private → List node_private
  | _, [] => []
  | first, raw :: raws =>
    (bootstrap ent e (first : Int) (setnode (first : Int) none raw)).1
      :: init_nodes ent e (first + 1) raws

/-- The initial network: node 0, which `setnode` makes the sink, and one sensor
per further allocated block, all bootstrapped; nothing has been broadcast. -/
def net_init (ent : entitydata) (e : env) (raw_sink : node_private)
    (raw_sensors : List node_private) : net :=
  { ent := ent, nodes := init_nodes ent e 0 (raw_sink :: raw_sensors), sent := [] }

/-- The depth of node 0, the sink. -/
def sink_depth (n : net) : Option Int := (n.nodes[0]?).map (fun nd => nd.depth)

/-- What the sink's sequence number `S` bounds at a sensor: the sensor's
sequence number is below `S`, its depth is at least `-1`, and it is not a
sink. -/
def sensor_ok (S : Int) (nd : node_private) : Prop :=
  nd.seqno < S ∧ -1 ≤ nd.depth ∧ nd.type ≠ SINK

/-- What the sink's sequence number `S` bounds in a broadcast packet: a BUILD
packet carries a sequence number below `S` and a depth of at least `-1`. -/
def packet_ok (S : Int) (h : packet_header) : Prop :=
  h.p_type = BUILD → h.p_seqno < S ∧ -1 ≤ h.p_depth

/-- The invariant of the network: node 0 is a sink at depth 0, and its sequence
number bounds every sensor and every packet broadcast so far. -/
def net_inv (n : net) : Prop :=
  ∃ sink rest, n.nodes = sink :: rest ∧ sink.depth = 0 ∧ sink.type = SINK ∧
    (∀ nd ∈ rest, sensor_ok sink.seqno nd) ∧ (∀ h ∈ n.sent, packet_ok sink.seqno h)

/-! ## The Sequence Cache under insertions -/

/-- The node state after the insertions `add_seq s` for the `s` of a list,
oldest first. -/
def add_seqs (nd : node_private) : List Int → node_private
  | [] => nd
  | s :: ss => add_seqs (add_seq nd s) ss

/-- The most recently inserted values of a list of insertions, newest first:
the last `SEQUENCE`, or all of them when there are fewer. -/
def last_inserted (ss : List Int) : List Int := ss.reverse.take SEQUENCE.toNat

/-- The ring invariant of the Sequence Cache after the insertions `ss`: the
array has its ten slots, `seq_pointer` is an index of it, and going back `j`
slots from `seq_pointer` (cyclically) one finds the `j`-th most recent
insertion. -/
def ring_inv (seq : List Int) (sp : Int) (ss : List Int) : Prop :=
  (seq.length : Int) = SEQUENCE ∧ 0 ≤ sp ∧ sp < SEQUENCE ∧
    ∀ j : Nat, j < 10 → j < ss.length → seq[(sp.toNat + 10 - j) % 10]? = ss.reverse[j]?

/-! ## One node and its pending callbacks -/

/-- An event at one node of which the scheduler is kept track: the reception
of a packet, or the firing of a callback. -/
inductive sched_event where
  | rx (e : env) (header : packet_header)
  | fire (e : env) (cb : callback)

/-- A node together with the entity data and the callbacks handed to
`scheduler_add_callback` that have not fired yet. -/
structure sched_node where
  ent : entitydata
  nd : node_private
  pending : List callback

/-- The firing of a callback: the callback function runs and what it schedules
becomes pending. -/
def run_callback (c_node : Int) (s : sched_node) (e : env) : callback → sched_node
  | callback.tx_build =>
    let r := tx_build s.ent e c_node s.nd
    { s with nd := r.2.1, pending := s.pending ++ scheduled r.2.2 }
  | callback.tx_data =>
    let r := tx_data s.ent e c_node s.nd
    { ent := r.2.1, nd := r.2.2.1, pending := s.pending ++ scheduled r.2.2.2 }
  | callback.tx_forward =>
    let r := tx_forward s.ent e c_node s.nd
    { s with nd := r.2.1, pending := s.pending ++ scheduled r.2.2 }

/-- One event of the scheduled node.  Only a pending callback fires, and it is
then no longer pending; what `rx` or the callback schedules becomes pending. -/
def sched_step (c_node : Int) (s : sched_node) : sched_event → sched_node
  | sched_event.rx e header =>
    let r := rx s.ent e c_node s.nd header
    { s with nd := r.1, pending := s.pending ++ scheduled r.2 }
  | sched_event.fire e cb =>
    if cb ∈ s.pending then
      run_callback c_node { s with pending := s.pending.erase cb } e cb
    else s

/-- The scheduled node after a sequence of events, oldest first. -/
def sched_run (c_node : Int) (s : sched_node) : List sched_event → sched_node
  | [] => s
  | ev :: evs => sched_run c_node (sched_step c_node s ev) evs

/-- The scheduled node `c_node` after `setnode` (no `type` parameter) and
`bootstrap`. -/
def sched_init (ent : entitydata) (e : env) (c_node : Int) (raw : node_private) :
    sched_node :=
  { ent := ent
    nd := (bootstrap ent e c_node (setnode c_node none raw)).1
    pending := scheduled (bootstrap ent e c_node (setnode c_node none raw)).2 }

/-! ## Successive originations -/

/-- The packets sent by successive invocations of `tx_data`, each with the
simulator services and the node state it finds, the entity data being threaded
through: the final entity data and the packets, oldest first. -/
def tx_data_run (ent : entitydata) (c_node : Int) :
    List (env × node_private) → entitydata × List packet_header
  | [] => (ent, [])
  | (e, nd) :: rest =>
    let r := tx_data ent e c_node nd
    let rr := tx_data_run r.2.1 c_node rest
    (rr.1, transmitted r.2.2.2 ++ rr.2)

/-! ## Example states -/

/-- An environment in which `SET_HEADER` succeeds. -/
def ex_env : env :=
  { time := 1000, random := fun _ hi => hi / 2, set_header := 0,
    pos_x := 0, pos_y := 0, energy := 50 }

/-- An environment in which `SET_HEADER` fails. -/
def ex_env_fail : env := { ex_env with set_header := -1 }

/-- The default entity data of `init` (lines 184-188). -/
def ex_ent : entitydata :=
  { Delay := 500000000, Period := 10000000000, Jitter := 50000000,
    TimeSpace := 1000000000, packet_seq := 0 }

/-- A header with every field zero. -/
def ex_zero_header : packet_header :=
  { p_src := 0, p_dst := 0, p_type := 0, p_seqno := 0, p_depth := 0, p_origin := 0,
    p_status := 0, p_pos_x := 0, p_pos_y := 0, p_stamp := 0 }

/-- An allocated block whose cells are all zero. -/
def ex_raw : node_private :=
  { seqno := 0, depth := 0, from_ := 0, type := 0, status := 0, msg_status := 0,
    node_status := 0, p := List.replicate 10 ex_zero_header, seq := List.replicate 10 0,
    buffer_pointer := 0, seq_pointer := 0, no_packet_sent := 0, no_packet_recv := 0,
    no_packet_drop := 0, distance := 0, speed := 0, timestamp := 0, cosx := 0, sinx := 0 }

/-- A `BUILD` header sent by `src` with the given sequence number and depth. -/
def ex_build (src seqno depth : Int) : packet_header :=
  { ex_zero_header with
    p_src := src, p_origin := src, p_dst := -1, p_type := BUILD,
    p_seqno := seqno, p_depth := depth }

/-- A `DATA` header sent by `src` for `origin` with the given sequence number
and depth. -/
def ex_data (src origin seqno depth : Int) : packet_header :=
  { ex_zero_header with
    p_src := src, p_origin := origin, p_dst := -1, p_type := DATA,
    p_seqno := seqno, p_depth := depth, p_stamp := 900 }

/-- The sensor node 2 after `setnode` and `bootstrap`. -/
def ex_sensor : node_private :=
  (bootstrap ex_ent ex_env 2 (setnode 2 none ex_raw)).1

/-- The sink (node 0) after `setnode` and `bootstrap`. -/
def ex_sink : node_private :=
  (bootstrap ex_ent ex_env 0 (setnode 0 none ex_raw)).1

/-- The sensor node 2 once it has received `BUILD(seq = 0, depth = 1)` from
node 1: active, at depth 2. -/
def ex_relay : node_private :=
  (rx ex_ent ex_env 2 ex_sensor (ex_build 1 0 1)).1

/-- The sensor node 2 once it has received `BUILD(seq = 5, depth = 3)` from
node 1: sequence number 5, depth 4. -/
def ex_deep : node_private :=
  (rx ex_ent ex_env 2 ex_sensor (ex_build 1 5 3)).1

/-- The relay after `n` further DATA packets, with sequence numbers
`100, 101, ...`, have arrived from depth 3. -/
def ex_fill : Nat → node_private
  | 0 => ex_relay
  | n + 1 => (rx ex_ent ex_env 2 (ex_fill n) (ex_data 5 1 (100 + (n : Int)) 3)).1

/-- A run of a three-node network: the sink announces, node 1 hears it and
re-announces, the sink and node 2 hear node 1, the sink announces again. -/
def ex_actions : List action :=
  [action.tx_build 0 ex_env, action.rx 1 ex_env 0, action.tx_build 1 ex_env,
   action.rx 0 ex_env 1, action.rx 2 ex_env 1, action.tx_build 0 ex_env,
   action.rx 1 ex_env 2, action.rx 0 ex_env 2]

/-- Events at the sensor node 2: it hears a BUILD packet, receives two DATA
packets, drains once, receives a third DATA packet and drains again. -/
def ex_events : List node_event :=
  [node_event.rx ex_env (ex_build 1 0 1), node_event.rx ex_env (ex_data 5 1 7 3),
   node_event.rx ex_env (ex_data 5 1 8 3), node_event.tx_forward ex_env,
   node_event.rx ex_env (ex_data 5 1 9 3), node_event.tx_forward ex_env]

/-- Node 1 once it has received `BUILD(seq = 0, depth = 2)` from node 2:
active, at depth 3. -/
def ex_origin : node_private :=
  (rx ex_ent ex_env 1 (bootstrap ex_ent ex_env 1 (setnode 1 none ex_raw)).1 (ex_build 2 0 2)).1

/-- The entity data once six packets have been originated. -/
def ex_ent6 : entitydata := { ex_ent with packet_seq := 6 }

/-- The DATA packet of sequence number 7 that node 1 originates at depth 3. -/
def ex_packet7 : packet_header :=
  { p_src := 1, p_dst := -1, p_type := DATA, p_seqno := 7, p_depth := 3, p_origin := 1,
    p_status := STATIC, p_pos_x := 0, p_pos_y := 0, p_stamp := 1000 }

/-- The chain sink - A - B, in which B hears only A: the sink announces, A
hears it and re-announces, B hears A; then the same once more. -/
def ex_chain : List action :=
  [action.tx_build 0 ex_env, action.rx 1 ex_env 0, action.tx_build 1 ex_env,
   action.rx 2 ex_env 1,
   action.tx_build 0 ex_env, action.rx 1 ex_env 2, action.tx_build 1 ex_env,
   action.rx 2 ex_env 3]

/-- A DATA packet of sequence number 7 sent from depth 3 by a moving node. -/
def ex_moving : packet_header :=
  { p_src := 5, p_dst := -1, p_type := DATA, p_seqno := 7, p_depth := 3, p_origin := 1,
    p_status := MOVING, p_pos_x := 0, p_pos_y := 0, p_stamp := 900 }

/-- The three-node network after the first half of `ex_chain`. -/
def ex_net1 : net := net_run (net_init ex_ent ex_env ex_raw [ex_raw, ex_raw]) (ex_chain.take 4)

/-- The three-node network after the whole of `ex_chain`. -/
def ex_net2 : net := net_run (net_init ex_ent ex_env ex_raw [ex_raw, ex_raw]) ex_chain

/-- The state of node `i` of a network (`ex_raw` when there is no such node). -/
def node_of (n : net) (i : Nat) : node_private := n.nodes.getD i ex_raw

/-- The packet `ex_packet7` as the relay (node 2, depth 2) forwards it. -/
def ex_relayed7 : packet_header := { ex_packet7 with p_src := 2, p_depth := 2 }

end GR

/-! # Theorems -/

namespace GR

/-! ## Basic facts about the embedding -/

theorem copy_fields_eq (h : packet_header) : copy_fields h = h := rfl

theorem rx_data_fwd_cases (nd : node_private) (header : packet_header) :
    rx_data_fwd nd header = 0 ∨ rx_data_fwd nd header = 1 ∨
      rx_data_fwd nd header = 2 ∨ rx_data_fwd nd header = 3 := by
  unfold rx_data_fwd
  split_ifs <;> simp

/-! ## C1: depth decreases along every accepted DATA packet -/

/-- C1. Whenever `rx` decides to enqueue (`fwd = 1`) or to deliver (`fwd = 2`)
a received DATA packet, the node is active and its depth is strictly less than
the depth recorded in the packet; and `rx` changes the Forward Buffer length or
the received counter on no other packet. -/
theorem rx_accept_depth_decreasing (ent : entitydata) (e : env) (c_node : Int)
    (nd : node_private) (header : packet_header) :
    (header.p_type = DATA →
      (rx_data_fwd nd header = 1 ∨ rx_data_fwd nd header = 2) →
        nd.node_status = NODE_ON ∧ nd.depth < header.p_depth) ∧
    (((rx ent e c_node nd header).1.buffer_pointer ≠ nd.buffer_pointer ∨
      (rx ent e c_node nd header).1.no_packet_recv ≠ nd.no_packet_recv) →
        header.p_type = DATA ∧
        (rx_data_fwd nd header = 1 ∨ rx_data_fwd nd header = 2) ∧
        nd.node_status = NODE_ON ∧ nd.depth < header.p_depth) := by
  have key : (rx_data_fwd nd header = 1 ∨ rx_data_fwd nd header = 2) →
      nd.node_status = NODE_ON ∧ nd.depth < header.p_depth := by
    unfold rx_data_fwd
    split_ifs with h1 h2 h3 <;> simp
    all_goals exact ⟨by simpa using h1.2, h1.1⟩
  refine ⟨fun _ hf => key hf, ?_⟩
  intro hch
  by_cases ht : header.p_type = DATA
  · have hb : header.p_type ≠ BUILD := by simp_all
    rcases rx_data_fwd_cases nd header with h0 | h1 | h2 | h3
    · simp [rx, hb, ht, rx_data, h0] at hch
    · exact ⟨ht, Or.inl h1, key (Or.inl h1)⟩
    · exact ⟨ht, Or.inr h2, key (Or.inr h2)⟩
    · simp [rx, hb, ht, rx_data, h3] at hch
  · exfalso
    by_cases hb : header.p_type = BUILD
    · simp only [rx, hb, if_true, rx_build, rx_build_update] at hch
      revert hch
      split_ifs <;> simp
    · rw [rx, if_neg hb, if_neg ht] at hch
      simp at hch

/-- Witness for C1: the relay at depth 2 enqueues a DATA packet sent from
depth 3. -/
theorem rx_accept_depth_decreasing_witness :
    (ex_data 5 1 7 3).p_type = DATA ∧ rx_data_fwd ex_relay (ex_data 5 1 7 3) = 1 ∧
      ex_relay.node_status = NODE_ON ∧ ex_relay.depth < (ex_data 5 1 7 3).p_depth :=
  ⟨by decide, by decide,
    (rx_accept_depth_decreasing ex_ent ex_env 2 ex_relay (ex_data 5 1 7 3)).1 (by decide)
      (Or.inl (by decide))⟩

end GR

namespace GR

/-! ## C2: duplicate suppression -/

/-- C2. A DATA packet whose sequence number `check_seq` reports present in the
Sequence Cache is neither enqueued nor delivered by `rx`: the Forward Buffer,
its length, the Sequence Cache and the received counter are unchanged, and `rx`
schedules and prints nothing. -/
theorem rx_duplicate_suppressed (ent : entitydata) (e : env) (c_node : Int)
    (nd : node_private) (header : packet_header)
    (htype : header.p_type = DATA) (hdup : check_seq nd header.p_seqno = -1) :
    rx_data_fwd nd header ≠ 1 ∧ rx_data_fwd nd header ≠ 2 ∧
    (rx ent e c_node nd header).1.p = nd.p ∧
    (rx ent e c_node nd header).1.buffer_pointer = nd.buffer_pointer ∧
    (rx ent e c_node nd header).1.seq = nd.seq ∧
    (rx ent e c_node nd header).1.seq_pointer = nd.seq_pointer ∧
    (rx ent e c_node nd header).1.no_packet_recv = nd.no_packet_recv ∧
    (rx ent e c_node nd header).2 = [] := by
  have hb : header.p_type ≠ BUILD := by simp_all
  have hf : rx_data_fwd nd header = 0 ∨ rx_data_fwd nd header = 3 := by
    unfold rx_data_fwd
    split_ifs with h1 h2 <;> simp
    all_goals
      have h := h2.2
      rw [hdup] at h
      exact absurd h (by decide)
  rw [rx, if_neg hb, if_pos htype]
  rcases hf with h0 | h3
  · simp [rx_data, h0]
  · simp [rx_data, h3]

/-- Witness for C2: the same DATA packet arriving a second time at the relay. -/
theorem rx_duplicate_suppressed_witness :
    check_seq (rx ex_ent ex_env 2 ex_relay (ex_data 5 1 7 3)).1 (ex_data 6 1 7 4).p_seqno = -1 ∧
    (rx ex_ent ex_env 2 (rx ex_ent ex_env 2 ex_relay (ex_data 5 1 7 3)).1
        (ex_data 6 1 7 4)).1.buffer_pointer = 1 ∧
    (rx ex_ent ex_env 2 (rx ex_ent ex_env 2 ex_relay (ex_data 5 1 7 3)).1
        (ex_data 6 1 7 4)).2 = [] :=
  ⟨by decide,
   ((rx_duplicate_suppressed ex_ent ex_env 2 (rx ex_ent ex_env 2 ex_relay (ex_data 5 1 7 3)).1
      (ex_data 6 1 7 4) (by decide) (by decide)).2.2.2.1).trans (by decide),
   (rx_duplicate_suppressed ex_ent ex_env 2 (rx ex_ent ex_env 2 ex_relay (ex_data 5 1 7 3)).1
      (ex_data 6 1 7 4) (by decide) (by decide)).2.2.2.2.2.2.2⟩

/-! ## C3: the BUILD acceptance rule -/

/-- C3. On a BUILD packet, `rx` accepts (the variable `helper` ends positive)
if and only if the packet's sequence number exceeds the node's `seqno` or the
node's depth exceeds the packet's depth plus one, both read before the packet.
On acceptance the new depth is the packet's depth plus one and the new parent
is the packet's source; otherwise depth, `seqno`, parent and `msg_status` are
unchanged and nothing is scheduled. -/
theorem rx_build_acceptance (ent : entitydata) (e : env) (c_node : Int)
    (nd : node_private) (header : packet_header) (htype : header.p_type = BUILD) :
    ((rx_build_update nd header).2 > 0 ↔
      (header.p_seqno > nd.seqno ∨ nd.depth > header.p_depth + 1)) ∧
    ((header.p_seqno > nd.seqno ∨ nd.depth > header.p_depth + 1) →
      (rx ent e c_node nd header).1.depth = header.p_depth + 1 ∧
      (rx ent e c_node nd header).1.from_ = header.p_src) ∧
    (¬ (header.p_seqno > nd.seqno ∨ nd.depth > header.p_depth + 1) →
      (rx ent e c_node nd header).1.depth = nd.depth ∧
      (rx ent e c_node nd header).1.seqno = nd.seqno ∧
      (rx ent e c_node nd header).1.from_ = nd.from_ ∧
      (rx ent e c_node nd header).1.msg_status = nd.msg_status ∧
      (rx ent e c_node nd header).2 = []) := by
  rw [rx, if_pos htype]
  simp only [rx_build, rx_build_update]
  refine ⟨?_, ?_, ?_⟩
  · split_ifs <;> simp_all
  · intro h
    split_ifs <;> simp_all
  · intro h
    split_ifs <;> simp_all

/-- Witness for C3: a fresh sensor accepts `BUILD(seq = 0, depth = 1)` sent by
node 1 and takes depth 2 with parent 1. -/
theorem rx_build_acceptance_witness :
    (ex_build 1 0 1).p_type = BUILD ∧
    (ex_build 1 0 1).p_seqno > ex_sensor.seqno ∧
    (rx ex_ent ex_env 2 ex_sensor (ex_build 1 0 1)).1.depth = 2 ∧
    (rx ex_ent ex_env 2 ex_sensor (ex_build 1 0 1)).1.from_ = 1 :=
  ⟨by decide, by decide,
   ((rx_build_acceptance ex_ent ex_env 2 ex_sensor (ex_build 1 0 1) (by decide)).2.1
      (Or.inl (by decide))).1,
   ((rx_build_acceptance ex_ent ex_env 2 ex_sensor (ex_build 1 0 1) (by decide)).2.1
      (Or.inl (by decide))).2⟩

/-! ## C4: the sequence number after an accepted BUILD packet -/

/-- C4, as stated, fails: the sensor `ex_deep` (sequence number 5, depth 4)
accepts `BUILD(seq = 3, depth = 1)` by the shorter-path test, and its sequence
number becomes 3, which is neither `max 5 3` nor at least 5. -/
theorem rx_build_seqno_max_counterexample :
    (ex_build 3 3 1).p_type = BUILD ∧
    ex_deep.seqno = 5 ∧
    (rx_build_update ex_deep (ex_build 3 3 1)).2 > 0 ∧
    (rx ex_ent ex_env 2 ex_deep (ex_build 3 3 1)).1.seqno = 3 ∧
    (rx ex_ent ex_env 2 ex_deep (ex_build 3 3 1)).1.seqno ≠
      max ex_deep.seqno (ex_build 3 3 1).p_seqno ∧
    (rx ex_ent ex_env 2 ex_deep (ex_build 3 3 1)).1.seqno < ex_deep.seqno := by
  decide

/-- C4, amended. On every accepted BUILD packet the node's `seqno` after `rx`
is the packet's sequence number; it is `max` of the old `seqno` and the packet's
sequence number whenever the packet's sequence number is not below the old
`seqno` (in particular whenever the first test accepts). A BUILD packet lowers
`seqno` exactly when the node's depth exceeds the packet's depth plus one and
the packet's sequence number is below `seqno`; on every other BUILD packet
`seqno` does not decrease, and a packet that is not accepted leaves it
unchanged. -/
theorem rx_build_seqno (ent : entitydata) (e : env) (c_node : Int)
    (nd : node_private) (header : packet_header) (htype : header.p_type = BUILD) :
    ((rx_build_update nd header).2 > 0 →
      (rx ent e c_node nd header).1.seqno = header.p_seqno) ∧
    ((rx_build_update nd header).2 > 0 → nd.seqno ≤ header.p_seqno →
      (rx ent e c_node nd header).1.seqno = max nd.seqno header.p_seqno) ∧
    (header.p_seqno > nd.seqno →
      (rx ent e c_node nd header).1.seqno = max nd.seqno header.p_seqno) ∧
    ((nd.depth > header.p_depth + 1 ∧ header.p_seqno < nd.seqno) ↔
      (rx ent e c_node nd header).1.seqno < nd.seqno) ∧
    (¬ (rx_build_update nd header).2 > 0 →
      (rx ent e c_node nd header).1.seqno = nd.seqno) := by
  rw [rx, if_pos htype]
  simp only [rx_build, rx_build_update]
  refine ⟨?_, ?_, ?_, ?_, ?_⟩
  · split_ifs <;> simp_all
  · intro h1 h2
    rw [max_eq_right h2]
    revert h1
    split_ifs <;> simp_all
  · intro h
    rw [max_eq_right (le_of_lt h)]
    split_ifs <;> simp_all
  · split_ifs <;> simp_all <;> omega
  · split_ifs <;> simp_all

/-- Witness for the amended C4: a fresh sensor accepts `BUILD(seq = 5,
depth = 3)` and its sequence number becomes 5. -/
theorem rx_build_seqno_witness :
    (ex_build 1 5 3).p_type = BUILD ∧
    (rx_build_update ex_sensor (ex_build 1 5 3)).2 > 0 ∧
    (rx ex_ent ex_env 2 ex_sensor (ex_build 1 5 3)).1.seqno = (ex_build 1 5 3).p_seqno :=
  ⟨by decide, by decide,
   (rx_build_seqno ex_ent ex_env 2 ex_sensor (ex_build 1 5 3) (by decide)).1 (by decide)⟩

end GR

namespace GR

/-! ## C5: the sink stays at depth 0 -/

theorem transmitted_append (xs ys : List effect) :
    transmitted (xs ++ ys) = transmitted xs ++ transmitted ys := by
  induction xs with
  | nil => rfl
  | cons x xs ih => cases x <;> simp [transmitted, ih]

theorem rx_transmitted (ent : entitydata) (e : env) (c_node : Int) (nd : node_private)
    (header : packet_header) : transmitted (rx ent e c_node nd header).2 = [] := by
  unfold rx rx_build rx_data
  simp only []
  split_ifs <;> simp [transmitted]

theorem rx_type (ent : entitydata) (e : env) (c_node : Int) (nd : node_private)
    (header : packet_header) : (rx ent e c_node nd header).1.type = nd.type := by
  unfold rx rx_build rx_build_update rx_data add_seq
  simp only []
  split_ifs <;> simp

/-- The gradient fields after `rx`: either untouched, or the packet is a BUILD
packet passing one of the two tests and they are taken from it. -/
theorem rx_gradient (ent : entitydata) (e : env) (c_node : Int) (nd : node_private)
    (header : packet_header) :
    ((rx ent e c_node nd header).1.seqno = nd.seqno ∧
      (rx ent e c_node nd header).1.depth = nd.depth) ∨
    (header.p_type = BUILD ∧
      (nd.seqno < header.p_seqno ∨ nd.depth > header.p_depth + 1) ∧
      (rx ent e c_node nd header).1.seqno = header.p_seqno ∧
      (rx ent e c_node nd header).1.depth = header.p_depth + 1) := by
  unfold rx rx_build rx_build_update rx_data add_seq
  simp only []
  split_ifs <;> simp_all

theorem tx_data_gradient (ent : entitydata) (e : env) (c_node : Int) (nd : node_private) :
    (tx_data ent e c_node nd).2.2.1.seqno = nd.seqno ∧
    (tx_data ent e c_node nd).2.2.1.depth = nd.depth ∧
    (tx_data ent e c_node nd).2.2.1.type = nd.type ∧
    ∀ h ∈ transmitted (tx_data ent e c_node nd).2.2.2, h.p_type = DATA := by
  unfold tx_data
  split_ifs <;> simp [transmitted]

theorem tx_forward_gradient (ent : entitydata) (e : env) (c_node : Int) (nd : node_private) :
    (tx_forward ent e c_node nd).2.1.seqno = nd.seqno ∧
    (tx_forward ent e c_node nd).2.1.depth = nd.depth ∧
    (tx_forward ent e c_node nd).2.1.type = nd.type ∧
    ∀ h ∈ transmitted (tx_forward ent e c_node nd).2.2, h.p_type = DATA := by
  unfold tx_forward
  simp only []
  split_ifs <;> simp [transmitted, transmitted_append]

theorem tx_build_gradient (ent : entitydata) (e : env) (c_node : Int) (nd : node_private) :
    (tx_build ent e c_node nd).2.1.depth = nd.depth ∧
    (tx_build ent e c_node nd).2.1.type = nd.type ∧
    (nd.type ≠ SINK → (tx_build ent e c_node nd).2.1.seqno = nd.seqno) ∧
    nd.seqno ≤ (tx_build ent e c_node nd).2.1.seqno ∧
    (∀ h ∈ transmitted (tx_build ent e c_node nd).2.2,
      h.p_seqno = nd.seqno ∧ h.p_depth = nd.depth ∧
        (nd.type = SINK → h.p_seqno < (tx_build ent e c_node nd).2.1.seqno)) := by
  unfold tx_build
  simp only []
  split_ifs <;> simp_all [transmitted]

theorem sensor_ok_mono {S T : Int} (hST : S ≤ T) {nd : node_private} (h : sensor_ok S nd) :
    sensor_ok T nd :=
  ⟨lt_of_lt_of_le h.1 hST, h.2.1, h.2.2⟩

theorem packet_ok_mono {S T : Int} (hST : S ≤ T) {h : packet_header} (hp : packet_ok S h) :
    packet_ok T h :=
  fun hb => ⟨lt_of_lt_of_le (hp hb).1 hST, (hp hb).2⟩

theorem packet_ok_of_data {S : Int} {h : packet_header} (hd : h.p_type = DATA) :
    packet_ok S h := by
  intro hb
  rw [hd] at hb
  exact absurd hb (by decide)

/-- The invariant survives the replacement of one node's state and the
broadcast of further packets, when the replacement respects the sink's and the
sensors' part of the invariant. -/
theorem net_inv_update (n : net) (hinv : net_inv n) (i : Nat) (nd nd1 : node_private)
    (ps : List packet_header) (ent1 : entitydata) (hget : n.nodes[i]? = some nd)
    (hsink : nd.depth = 0 → nd.type = SINK → (∀ h ∈ n.sent, packet_ok nd.seqno h) →
      nd1.depth = 0 ∧ nd1.type = SINK ∧ nd.seqno ≤ nd1.seqno ∧
        ∀ h ∈ ps, packet_ok nd1.seqno h)
    (hsensor : ∀ S, sensor_ok S nd → (∀ h ∈ n.sent, packet_ok S h) →
      sensor_ok S nd1 ∧ ∀ h ∈ ps, packet_ok S h) :
    net_inv { ent := ent1, nodes := n.nodes.set i nd1, sent := n.sent ++ ps } := by
  obtain ⟨sink, rest, hnodes, hd, ht, hrest, hsent⟩ := hinv
  rw [hnodes] at hget
  cases i with
  | zero =>
    have hnd : sink = nd := by simpa using hget
    subst hnd
    obtain ⟨h1, h2, h3, h4⟩ := hsink hd ht hsent
    refine ⟨nd1, rest, by simp [hnodes], h1, h2, ?_, ?_⟩
    · intro x hx
      exact sensor_ok_mono h3 (hrest x hx)
    · intro h hh
      rcases List.mem_append.mp hh with hh | hh
      · exact packet_ok_mono h3 (hsent h hh)
      · exact h4 h hh
  | succ k =>
    have hk : rest[k]? = some nd := by simpa using hget
    have hmem : nd ∈ rest := List.getElem?_mem hk
    obtain ⟨h1, h2⟩ := hsensor sink.seqno (hrest nd hmem) hsent
    refine ⟨sink, rest.set k nd1, by simp [hnodes], hd, ht, ?_, ?_⟩
    · intro x hx
      rcases List.mem_or_eq_of_mem_set hx with hx | hx
      · exact hrest x hx
      · rw [hx]; exact h1
    · intro h hh
      rcases List.mem_append.mp hh with hh | hh
      · exact hsent h hh
      · exact h2 h hh

theorem net_step_inv (n : net) (a : action) (hinv : net_inv n) : net_inv (net_step n a) := by
  cases a with
  | tx_build i e =>
    simp only [net_step]
    cases hget : n.nodes[i]? with
    | none => exact hinv
    | some nd =>
      obtain ⟨g1, g2, g3, g4, g5⟩ := tx_build_gradient n.ent e (i : Int) nd
      refine net_inv_update n hinv i nd _ _ _ hget ?_ ?_
      · intro hd ht _
        refine ⟨by rw [g1, hd], by rw [g2, ht], g4, ?_⟩
        intro h hh _
        obtain ⟨q1, q2, q3⟩ := g5 h hh
        exact ⟨q3 ht, by rw [q2, hd]; decide⟩
      · intro S hok _
        refine ⟨⟨by rw [g3 hok.2.2]; exact hok.1, by rw [g1]; exact hok.2.1,
          by rw [g2]; exact hok.2.2⟩, ?_⟩
        intro h hh _
        obtain ⟨q1, q2, _⟩ := g5 h hh
        exact ⟨by rw [q1]; exact hok.1, by rw [q2]; exact hok.2.1⟩
  | tx_data i e =>
    simp only [net_step]
    cases hget : n.nodes[i]? with
    | none => exact hinv
    | some nd =>
      obtain ⟨g1, g2, g3, g4⟩ := tx_data_gradient n.ent e (i : Int) nd
      refine net_inv_update n hinv i nd _ _ _ hget ?_ ?_
      · intro hd ht _
        exact ⟨by rw [g2, hd], by rw [g3, ht], by rw [g1],
          fun h hh => packet_ok_of_data (g4 h hh)⟩
      · intro S hok _
        exact ⟨⟨by rw [g1]; exact hok.1, by rw [g2]; exact hok.2.1,
          by rw [g3]; exact hok.2.2⟩, fun h hh => packet_ok_of_data (g4 h hh)⟩
  | tx_forward i e =>
    simp only [net_step]
    cases hget : n.nodes[i]? with
    | none => exact hinv
    | some nd =>
      obtain ⟨g1, g2, g3, g4⟩ := tx_forward_gradient n.ent e (i : Int) nd
      refine net_inv_update n hinv i nd _ _ _ hget ?_ ?_
      · intro hd ht _
        exact ⟨by rw [g2, hd], by rw [g3, ht], by rw [g1],
          fun h hh => packet_ok_of_data (g4 h hh)⟩
      · intro S hok _
        exact ⟨⟨by rw [g1]; exact hok.1, by rw [g2]; exact hok.2.1,
          by rw [g3]; exact hok.2.2⟩, fun h hh => packet_ok_of_data (g4 h hh)⟩
  | rx i e k =>
    simp only [net_step]
    cases hget : n.nodes[i]? with
    | none => exact hinv
    | some nd =>
      cases hpk : n.sent[k]? with
      | none => exact hinv
      | some header =>
        have hmem : header ∈ n.sent := List.getElem?_mem hpk
        have gt := rx_type n.ent e (i : Int) nd header
        have gg := rx_gradient n.ent e (i : Int) nd header
        have gx := rx_transmitted n.ent e (i : Int) nd header
        simp only []
        rw [gx]
        refine net_inv_update n hinv i nd _ _ _ hget ?_ ?_
        · intro hd ht hsent
          have hp := hsent header hmem
          rcases gg with ⟨q1, q2⟩ | ⟨hb, hc, _, _⟩
          · exact ⟨by rw [q2, hd], by rw [gt, ht], by rw [q1], by simp⟩
          · exfalso
            have := hp hb
            omega
        · intro S hok hsent
          have hp := hsent header hmem
          refine ⟨?_, by simp⟩
          rcases gg with ⟨q1, q2⟩ | ⟨hb, _, q1, q2⟩
          · exact ⟨by rw [q1]; exact hok.1, by rw [q2]; exact hok.2.1,
              by rw [gt]; exact hok.2.2⟩
          · have := hp hb
            exact ⟨by rw [q1]; exact this.1, by rw [q2]; omega, by rw [gt]; exact hok.2.2⟩

theorem net_run_inv (acts : List action) :
    ∀ n : net, net_inv n → net_inv (net_run n acts) := by
  induction acts with
  | nil => intro n h; exact h
  | cons a as ih => intro n h; exact ih _ (net_step_inv n a h)

theorem init_nodes_sensor_ok (ent : entitydata) (e : env) (raws : List node_private) :
    ∀ first : Nat, 0 < first → ∀ nd ∈ init_nodes ent e first raws, sensor_ok 0 nd := by
  induction raws with
  | nil => intro first _ nd h; simp [init_nodes] at h
  | cons raw raws ih =>
    intro first hpos nd h
    simp only [init_nodes, List.mem_cons] at h
    rcases h with h | h
    · have hne : ((first : Int) = 0) = False := by
        apply eq_false; omega
      subst h
      simp only [setnode, bootstrap, hne, if_false]
      by_cases h1 : (first : Int) = 1 <;> simp [sensor_ok, h1]
    · exact ih (first + 1) (Nat.succ_pos _) nd h

theorem net_init_inv (ent : entitydata) (e : env) (raw_sink : node_private)
    (raw_sensors : List node_private) : net_inv (net_init ent e raw_sink raw_sensors) := by
  refine ⟨_, init_nodes ent e 1 raw_sensors, rfl, ?_, ?_, ?_, ?_⟩
  · simp [setnode, bootstrap]
  · simp [setnode, bootstrap]
  · intro nd h
    have := init_nodes_sensor_ok ent e raw_sensors 1 (by decide) nd h
    simpa [setnode, bootstrap] using this
  · intro h hh
    simp [net_init] at hh

/-- C5. In every state of a network that starts with the bootstrapped sink
(node 0) and any number of freshly initialised sensors, and evolves by
`tx_build`, `tx_data` and `tx_forward` at any node and by `rx` at any node of a
packet broadcast earlier, the sink's depth is 0. -/
theorem sink_depth_zero (ent : entitydata) (e : env) (raw_sink : node_private)
    (raw_sensors : List node_private) (acts : List action) :
    sink_depth (net_run (net_init ent e raw_sink raw_sensors) acts) = some 0 := by
  obtain ⟨sink, rest, hnodes, hd, _, _, _⟩ :=
    net_run_inv acts _ (net_init_inv ent e raw_sink raw_sensors)
  simp [sink_depth, hnodes, hd]

end GR

namespace GR

/-! ## C6: the Forward Buffer length stays within the array -/

/-- The effect of `rx` on the Forward Buffer and the counters, by the value of
`fwd`. -/
theorem rx_data_effect (ent : entitydata) (e : env) (c_node : Int) (nd : node_private)
    (header : packet_header) (htype : header.p_type = DATA) :
    (rx_data_fwd nd header = 1 →
      (rx ent e c_node nd header).1.p = arr_set nd.p nd.buffer_pointer header ∧
      (rx ent e c_node nd header).1.buffer_pointer = nd.buffer_pointer + 1 ∧
      (rx ent e c_node nd header).1.no_packet_recv = nd.no_packet_recv + 1 ∧
      (rx ent e c_node nd header).1.no_packet_drop = nd.no_packet_drop) ∧
    (rx_data_fwd nd header ≠ 1 →
      (rx ent e c_node nd header).1.p = nd.p ∧
      (rx ent e c_node nd header).1.buffer_pointer = nd.buffer_pointer ∧
      (rx ent e c_node nd header).1.seq = nd.seq ∧
      (rx ent e c_node nd header).1.seq_pointer = nd.seq_pointer) := by
  have hb : header.p_type ≠ BUILD := by simp_all
  rw [rx, if_neg hb, if_pos htype]
  rcases rx_data_fwd_cases nd header with h | h | h | h <;>
    simp [rx_data, h, add_seq, copy_fields_eq]

/-- A packet that is not a DATA packet leaves the Forward Buffer alone. -/
theorem rx_other_buffer (ent : entitydata) (e : env) (c_node : Int) (nd : node_private)
    (header : packet_header) (htype : header.p_type ≠ DATA) :
    (rx ent e c_node nd header).1.p = nd.p ∧
    (rx ent e c_node nd header).1.buffer_pointer = nd.buffer_pointer := by
  unfold rx rx_build rx_build_update
  simp only [if_neg htype]
  split_ifs <;> simp

theorem rx_data_fwd_one_bound (nd : node_private) (header : packet_header)
    (h : rx_data_fwd nd header = 1) : nd.buffer_pointer < BUFFER - 1 := by
  unfold rx_data_fwd at h
  split_ifs at h with h1 h2 h3
  · exact h2.1
  all_goals simp at h

theorem rx_buffer_pointer_bound (ent : entitydata) (e : env) (c_node : Int)
    (nd : node_private) (header : packet_header)
    (h : 0 ≤ nd.buffer_pointer ∧ nd.buffer_pointer ≤ BUFFER - 1) :
    0 ≤ (rx ent e c_node nd header).1.buffer_pointer ∧
      (rx ent e c_node nd header).1.buffer_pointer ≤ BUFFER - 1 := by
  by_cases htype : header.p_type = DATA
  · by_cases hf : rx_data_fwd nd header = 1
    · rw [((rx_data_effect ent e c_node nd header htype).1 hf).2.1]
      have := rx_data_fwd_one_bound nd header hf
      omega
    · rw [((rx_data_effect ent e c_node nd header htype).2 hf).2.1]
      exact h
  · rw [(rx_other_buffer ent e c_node nd header htype).2]
    exact h

theorem tx_forward_buffer_pointer (ent : entitydata) (e : env) (c_node : Int)
    (nd : node_private) :
    (tx_forward ent e c_node nd).2.1.buffer_pointer =
      if nd.buffer_pointer - 1 < 0 then 0 else nd.buffer_pointer - 1 := by
  unfold tx_forward
  simp only []
  split_ifs <;> simp

theorem node_step_buffer_pointer_bound (ent : entitydata) (c_node : Int)
    (nd : node_private) (ev : node_event)
    (h : 0 ≤ nd.buffer_pointer ∧ nd.buffer_pointer ≤ BUFFER - 1) :
    0 ≤ (node_step ent c_node nd ev).buffer_pointer ∧
      (node_step ent c_node nd ev).buffer_pointer ≤ BUFFER - 1 := by
  cases ev with
  | rx e header => exact rx_buffer_pointer_bound ent e c_node nd header h
  | tx_forward e =>
    simp only [node_step, tx_forward_buffer_pointer]
    split_ifs <;> omega

theorem node_run_buffer_pointer_bound (ent : entitydata) (c_node : Int)
    (evs : List node_event) :
    ∀ nd : node_private, (0 ≤ nd.buffer_pointer ∧ nd.buffer_pointer ≤ BUFFER - 1) →
      0 ≤ (node_run ent c_node nd evs).buffer_pointer ∧
        (node_run ent c_node nd evs).buffer_pointer ≤ BUFFER - 1 := by
  induction evs with
  | nil => intro nd h; exact h
  | cons ev evs ih =>
    intro nd h
    exact ih _ (node_step_buffer_pointer_bound ent c_node nd ev h)

/-- C6. From a state with `buffer_pointer = 0`, under any sequence of `rx` on
arbitrary packets and `tx_forward` firings (on an empty buffer and with a
failing `SET_HEADER` included), `buffer_pointer` stays between 0 and `BUFFER`;
it even stays below `BUFFER`, so the slot `p[buffer_pointer]` that `rx` writes
and the slots `p[0] .. p[buffer_pointer - 1]` that `tx_forward` reads and
shifts all lie inside the array. -/
theorem buffer_pointer_bounded (ent : entitydata) (c_node : Int) (nd : node_private)
    (evs : List node_event) (hinit : nd.buffer_pointer = 0) :
    0 ≤ (node_run ent c_node nd evs).buffer_pointer ∧
    (node_run ent c_node nd evs).buffer_pointer ≤ BUFFER ∧
    (node_run ent c_node nd evs).buffer_pointer < BUFFER := by
  have h := node_run_buffer_pointer_bound ent c_node evs nd (by rw [hinit]; decide)
  simp only [BUFFER] at h ⊢
  omega

/-- Witness for C6: a fresh sensor that hears a BUILD packet, receives two DATA
packets and drains three times, once with a failing `SET_HEADER`. -/
theorem buffer_pointer_bounded_witness :
    ex_sensor.buffer_pointer = 0 ∧
    0 ≤ (node_run ex_ent 2 ex_sensor
      [node_event.rx ex_env (ex_build 1 0 1), node_event.rx ex_env (ex_data 5 1 7 3),
       node_event.rx ex_env (ex_data 5 1 8 3), node_event.tx_forward ex_env_fail,
       node_event.tx_forward ex_env, node_event.tx_forward ex_env]).buffer_pointer ∧
    (node_run ex_ent 2 ex_sensor
      [node_event.rx ex_env (ex_build 1 0 1), node_event.rx ex_env (ex_data 5 1 7 3),
       node_event.rx ex_env (ex_data 5 1 8 3), node_event.tx_forward ex_env_fail,
       node_event.tx_forward ex_env, node_event.tx_forward ex_env]).buffer_pointer ≤ BUFFER :=
  ⟨by decide,
   (buffer_pointer_bounded ex_ent 2 ex_sensor _ (by decide)).1,
   (buffer_pointer_bounded ex_ent 2 ex_sensor _ (by decide)).2.1⟩

/-! ## C7: a full buffer drops and counts -/

/-- With the buffer full, an active node sets `fwd = 3` on every DATA packet
from a greater depth. -/
theorem rx_data_fwd_full (nd : node_private) (header : packet_header)
    (hactive : nd.node_status = NODE_ON) (hfull : BUFFER - 1 ≤ nd.buffer_pointer)
    (hdepth : header.p_depth > nd.depth) : rx_data_fwd nd header = 3 := by
  unfold rx_data_fwd
  rw [if_pos ⟨hdepth, hactive⟩, if_neg]
  intro h
  exact absurd h.1 (not_lt.mpr hfull)

/-- The effect of `rx` when `fwd = 3`: only the drop counter changes. -/
theorem rx_drop_effect (ent : entitydata) (e : env) (c_node : Int) (nd : node_private)
    (header : packet_header) (htype : header.p_type = DATA)
    (hf : rx_data_fwd nd header = 3) :
    rx ent e c_node nd header =
      ({ nd with no_packet_drop := nd.no_packet_drop + 1 }, []) := by
  have hb : header.p_type ≠ BUILD := by simp_all
  rw [rx, if_neg hb, if_pos htype]
  simp [rx_data, hf]

/-- C7. At an active node whose Forward Buffer is full (`buffer_pointer` at
least `BUFFER - 1`, ten records included), a DATA packet from a greater depth
whose sequence number is not in the cache is dropped: `no_packet_drop` grows
by exactly one, and the buffer array, its records, its length, the Sequence
Cache and the received counter are unchanged; nothing is scheduled. -/
theorem rx_full_buffer_drop (ent : entitydata) (e : env) (c_node : Int)
    (nd : node_private) (header : packet_header)
    (htype : header.p_type = DATA) (hactive : nd.node_status = NODE_ON)
    (hfull : BUFFER - 1 ≤ nd.buffer_pointer) (hdepth : header.p_depth > nd.depth)
    (_hfresh : check_seq nd header.p_seqno = 1) :
    rx_data_fwd nd header = 3 ∧
    (rx ent e c_node nd header).1.no_packet_drop = nd.no_packet_drop + 1 ∧
    (rx ent e c_node nd header).1.p = nd.p ∧
    buffer (rx ent e c_node nd header).1 = buffer nd ∧
    (rx ent e c_node nd header).1.buffer_pointer = nd.buffer_pointer ∧
    (rx ent e c_node nd header).1.seq = nd.seq ∧
    (rx ent e c_node nd header).1.seq_pointer = nd.seq_pointer ∧
    (rx ent e c_node nd header).1.no_packet_recv = nd.no_packet_recv ∧
    (rx ent e c_node nd header).2 = [] := by
  have hf := rx_data_fwd_full nd header hactive hfull hdepth
  rw [rx_drop_effect ent e c_node nd header htype hf]
  simp [hf, buffer]

/-- Witness for C7: the relay holding nine records, the most `rx` lets it
hold, drops the next valid DATA packet. -/
theorem rx_full_buffer_drop_witness :
    (ex_fill 9).node_status = NODE_ON ∧ BUFFER - 1 ≤ (ex_fill 9).buffer_pointer ∧
    (ex_data 5 1 200 3).p_depth > (ex_fill 9).depth ∧
    check_seq (ex_fill 9) (ex_data 5 1 200 3).p_seqno = 1 ∧
    (rx ex_ent ex_env 2 (ex_fill 9) (ex_data 5 1 200 3)).1.no_packet_drop =
      (ex_fill 9).no_packet_drop + 1 ∧
    buffer (rx ex_ent ex_env 2 (ex_fill 9) (ex_data 5 1 200 3)).1 = buffer (ex_fill 9) :=
  ⟨by decide, by decide, by decide, by decide,
   (rx_full_buffer_drop ex_ent ex_env 2 (ex_fill 9) (ex_data 5 1 200 3) (by decide)
      (by decide) (by decide) (by decide) (by decide)).2.1,
   (rx_full_buffer_drop ex_ent ex_env 2 (ex_fill 9) (ex_data 5 1 200 3) (by decide)
      (by decide) (by decide) (by decide) (by decide)).2.2.2.1⟩

end GR

namespace GR

/-! ## C8: the capacity of the Forward Buffer -/

theorem take_set_succ {α : Type} (a : α) :
    ∀ (l : List α) (n : Nat), n < l.length → (l.set n a).take (n + 1) = l.take n ++ [a] := by
  intro l
  induction l with
  | nil => intro n h; simp at h
  | cons x xs ih =>
    intro n h
    cases n with
    | zero => simp
    | succ k =>
      have hk : k < xs.length := by simpa using h
      simp [List.set, List.take, ih k hk]

/-- The Forward Buffer after `rx` has enqueued a packet: the old records
followed by the packet. -/
theorem rx_enqueue_buffer (ent : entitydata) (e : env) (c_node : Int) (nd : node_private)
    (header : packet_header) (htype : header.p_type = DATA)
    (hf : rx_data_fwd nd header = 1) (hlen : (nd.p.length : Int) = BUFFER)
    (h0 : 0 ≤ nd.buffer_pointer) :
    buffer (rx ent e c_node nd header).1 = buffer nd ++ [header] := by
  obtain ⟨hp, hbp, _, _⟩ := (rx_data_effect ent e c_node nd header htype).1 hf
  have hlt := rx_data_fwd_one_bound nd header hf
  simp only [BUFFER] at hlt hlen
  have hn : nd.buffer_pointer.toNat < nd.p.length := by omega
  have hsucc : (nd.buffer_pointer + 1).toNat = nd.buffer_pointer.toNat + 1 := by omega
  unfold buffer
  rw [hp, hbp, hsucc, arr_set, if_pos h0]
  exact take_set_succ header nd.p _ hn

/-- C8, as stated, fails: the active sensor `ex_fill 9` holds nine records,
fewer than ten, and the valid DATA packet with sequence number 200 is dropped,
not enqueued. -/
theorem rx_capacity_ten_counterexample :
    (ex_fill 9).node_status = NODE_ON ∧ (ex_fill 9).type = SENSOR ∧
    (ex_fill 9).buffer_pointer = 9 ∧ (buffer (ex_fill 9)).length = 9 ∧
    (ex_data 5 1 200 3).p_type = DATA ∧
    (ex_data 5 1 200 3).p_depth > (ex_fill 9).depth ∧
    check_seq (ex_fill 9) (ex_data 5 1 200 3).p_seqno = 1 ∧
    rx_data_fwd (ex_fill 9) (ex_data 5 1 200 3) = 3 ∧
    (rx ex_ent ex_env 2 (ex_fill 9) (ex_data 5 1 200 3)).1.buffer_pointer = 9 ∧
    (rx ex_ent ex_env 2 (ex_fill 9) (ex_data 5 1 200 3)).1.no_packet_drop =
      (ex_fill 9).no_packet_drop + 1 := by
  have hf : rx_data_fwd (ex_fill 9) (ex_data 5 1 200 3) = 3 := by decide
  refine ⟨by decide, by decide, by decide, by decide, by decide, by decide, by decide,
    hf, ?_, ?_⟩
  · rw [rx_drop_effect ex_ent ex_env 2 (ex_fill 9) (ex_data 5 1 200 3) (by decide) hf]
    decide
  · rw [rx_drop_effect ex_ent ex_env 2 (ex_fill 9) (ex_data 5 1 200 3) (by decide) hf]

/-- C8, amended. The Forward Buffer takes `BUFFER - 1 = 9` records: at an active
sensor, a DATA packet from a greater depth whose sequence number is not in the
cache is enqueued when the buffer holds fewer than nine records (the length
grows by one, the packet becomes the last record, the drop counter is
unchanged), and it is dropped exactly when the buffer holds nine records or
more. -/
theorem rx_capacity (ent : entitydata) (e : env) (c_node : Int)
    (nd : node_private) (header : packet_header)
    (htype : header.p_type = DATA) (hactive : nd.node_status = NODE_ON)
    (hsensor : nd.type = SENSOR) (hdepth : header.p_depth > nd.depth)
    (hfresh : check_seq nd header.p_seqno = 1) :
    (nd.buffer_pointer < BUFFER - 1 →
      rx_data_fwd nd header = 1 ∧
      (rx ent e c_node nd header).1.buffer_pointer = nd.buffer_pointer + 1 ∧
      (rx ent e c_node nd header).1.no_packet_drop = nd.no_packet_drop ∧
      ((nd.p.length : Int) = BUFFER → 0 ≤ nd.buffer_pointer →
        buffer (rx ent e c_node nd header).1 = buffer nd ++ [header])) ∧
    (rx_data_fwd nd header = 3 ↔ BUFFER - 1 ≤ nd.buffer_pointer) ∧
    ((rx ent e c_node nd header).1.no_packet_drop = nd.no_packet_drop + 1 ↔
      BUFFER - 1 ≤ nd.buffer_pointer) := by
  have hone : nd.buffer_pointer < BUFFER - 1 → rx_data_fwd nd header = 1 := by
    intro h
    unfold rx_data_fwd
    rw [if_pos ⟨hdepth, hactive⟩, if_pos ⟨h, hfresh⟩, if_pos hsensor]
  have hthree : BUFFER - 1 ≤ nd.buffer_pointer → rx_data_fwd nd header = 3 := fun h =>
    rx_data_fwd_full nd header hactive h hdepth
  refine ⟨?_, ?_, ?_⟩
  · intro h
    obtain ⟨_, h2, _, h4⟩ := (rx_data_effect ent e c_node nd header htype).1 (hone h)
    exact ⟨hone h, h2, h4, fun hlen h0 =>
      rx_enqueue_buffer ent e c_node nd header htype (hone h) hlen h0⟩
  · constructor
    · intro h
      by_contra hlt
      rw [hone (not_le.mp hlt)] at h
      exact absurd h (by decide)
    · exact hthree
  · constructor
    · intro h
      by_contra hlt
      rw [((rx_data_effect ent e c_node nd header htype).1 (hone (not_le.mp hlt))).2.2.2] at h
      omega
    · intro h
      rw [rx_drop_effect ent e c_node nd header htype (hthree h)]

/-- Witness for the amended C8: the relay holding eight records enqueues the
next valid DATA packet. -/
theorem rx_capacity_witness :
    (ex_fill 8).node_status = NODE_ON ∧ (ex_fill 8).type = SENSOR ∧
    (ex_fill 8).buffer_pointer < BUFFER - 1 ∧
    rx_data_fwd (ex_fill 8) (ex_data 5 1 108 3) = 1 ∧
    (rx ex_ent ex_env 2 (ex_fill 8) (ex_data 5 1 108 3)).1.buffer_pointer =
      (ex_fill 8).buffer_pointer + 1 :=
  ⟨by decide, by decide, by decide,
   ((rx_capacity ex_ent ex_env 2 (ex_fill 8) (ex_data 5 1 108 3) (by decide) (by decide)
      (by decide) (by decide) (by decide)).1 (by decide)).1,
   ((rx_capacity ex_ent ex_env 2 (ex_fill 8) (ex_data 5 1 108 3) (by decide) (by decide)
      (by decide) (by decide) (by decide)).1 (by decide)).2.1⟩

end GR

namespace GR

/-! ## C9 and C10: first in, first out -/

theorem shift_loop_length (n : Nat) :
    ∀ (p : List packet_header) (i : Nat), (shift_loop p i n).length = p.length := by
  induction n with
  | zero => intro p i; rfl
  | succ n ih =>
    intro p i
    have h0 : (0 : Int) ≤ (i : Int) := Int.ofNat_nonneg i
    simp only [shift_loop, ih, arr_set, if_pos h0, List.length_set]

/-- The slots after the shifting loop: slot `j` of the shifted range holds what
slot `j + 1` held, every other slot is as before. -/
theorem shift_loop_getElem? (n : Nat) :
    ∀ (p : List packet_header) (i : Nat), i + n + 1 ≤ p.length → ∀ j : Nat,
      (shift_loop p i n)[j]? = if i ≤ j ∧ j < i + n then p[j + 1]? else p[j]? := by
  induction n with
  | zero =>
    intro p i _ j
    have hno : ¬ (i ≤ j ∧ j < i + 0) := by omega
    rw [if_neg hno]
    rfl
  | succ n ih =>
    intro p i hlen j
    have h0 : (0 : Int) ≤ (i : Int) := Int.ofNat_nonneg i
    have h1 : (0 : Int) ≤ (i : Int) + 1 := by omega
    have ht : ((i : Int) + 1).toNat = i + 1 := by omega
    have hi1 : i + 1 < p.length := by omega
    simp only [shift_loop, arr_set, arr_get, if_pos h0, if_pos h1, copy_fields_eq,
      Int.toNat_ofNat, ht]
    rw [ih _ (i + 1) (by simp only [List.length_set]; omega) j]
    have hget : p.getD (i + 1) default = p[i + 1] := by
      simp [List.getD_eq_getElem?_getD, List.getElem?_eq_getElem hi1]
    rw [hget]
    by_cases hj : j = i
    · subst hj
      have c1 : ¬ (j + 1 ≤ j ∧ j < j + 1 + n) := by omega
      have c2 : (j ≤ j ∧ j < j + (n + 1)) := by omega
      rw [if_neg c1, if_pos c2, List.getElem?_set_self (by omega),
        List.getElem?_eq_getElem hi1]
    · by_cases hr : i + 1 ≤ j ∧ j < i + 1 + n
      · have c2 : (i ≤ j ∧ j < i + (n + 1)) := by omega
        rw [if_pos hr, if_pos c2, List.getElem?_set_ne (by omega)]
      · have c2 : ¬ (i ≤ j ∧ j < i + (n + 1)) := by omega
        rw [if_neg hr, if_neg c2, List.getElem?_set_ne (Ne.symm hj)]

/-- After the shifting loop the first `n` slots hold what the slots
`1 .. n` held. -/
theorem shift_loop_take (p : List packet_header) (n : Nat) (hlen : n + 1 ≤ p.length) :
    (shift_loop p 0 n).take n = (p.take (n + 1)).drop 1 := by
  apply List.ext_getElem?
  intro j
  rw [List.getElem?_take, List.getElem?_drop, List.getElem?_take,
    shift_loop_getElem? n p 0 (by omega) j]
  by_cases hj : j < n
  · have c1 : (0 ≤ j ∧ j < 0 + n) := by omega
    have c2 : 1 + j < n + 1 := by omega
    rw [if_pos hj, if_pos c1, if_pos c2, Nat.add_comm]
  · have c2 : ¬ (1 + j < n + 1) := by omega
    rw [if_neg hj, if_neg c2]

end GR

namespace GR

theorem arr_set_length {α : Type} (a : List α) (i : Int) (v : α) :
    (arr_set a i v).length = a.length := by
  unfold arr_set
  split_ifs <;> simp

theorem rx_p_length (ent : entitydata) (e : env) (c_node : Int) (nd : node_private)
    (header : packet_header) : (rx ent e c_node nd header).1.p.length = nd.p.length := by
  by_cases htype : header.p_type = DATA
  · by_cases hf : rx_data_fwd nd header = 1
    · rw [((rx_data_effect ent e c_node nd header htype).1 hf).1, arr_set_length]
    · rw [((rx_data_effect ent e c_node nd header htype).2 hf).1]
  · rw [(rx_other_buffer ent e c_node nd header htype).1]

theorem tx_forward_p_length (ent : entitydata) (e : env) (c_node : Int)
    (nd : node_private) : (tx_forward ent e c_node nd).2.1.p.length = nd.p.length := by
  unfold tx_forward
  simp only []
  split_ifs <;> simp [shift_loop_length]

/-- The head record of a non-empty Forward Buffer is the slot `p[0]`. -/
theorem buffer_head (nd : node_private) (r0 : packet_header) (rest : List packet_header)
    (hbuf : buffer nd = r0 :: rest) : arr_get nd.p 0 default = r0 := by
  unfold buffer at hbuf
  cases hp : nd.p with
  | nil => rw [hp] at hbuf; simp at hbuf
  | cons x xs =>
    rw [hp] at hbuf
    cases hn : nd.buffer_pointer.toNat with
    | zero => rw [hn] at hbuf; simp at hbuf
    | succ k =>
      rw [hn] at hbuf
      simp only [List.take_succ_cons, List.cons.injEq] at hbuf
      simp [arr_get, hbuf.1]

/-- A drain on an empty buffer sends nothing and leaves the buffer empty. -/
theorem tx_forward_empty (ent : entitydata) (e : env) (c_node : Int) (nd : node_private)
    (h : nd.buffer_pointer ≤ 0) :
    tx_forward ent e c_node nd = (-1, { nd with buffer_pointer := 0 }, []) := by
  unfold tx_forward
  have hlt : nd.buffer_pointer - 1 < 0 := by omega
  simp [hlt]

/-- The packet handed to `TX` by a drain on a non-empty buffer whose
`SET_HEADER` succeeds. -/
theorem tx_forward_transmitted (ent : entitydata) (e : env) (c_node : Int)
    (nd : node_private) (h1 : 1 ≤ nd.buffer_pointer) (hok : e.set_header ≠ -1) :
    (tx_forward ent e c_node nd).1 = 1 ∧
    transmitted (tx_forward ent e c_node nd).2.2 =
      [{ p_src := c_node
         p_dst := -1
         p_type := DATA
         p_depth := nd.depth
         p_seqno := (arr_get nd.p 0 default).p_seqno
         p_origin := (arr_get nd.p 0 default).p_origin
         p_pos_x := (arr_get nd.p 0 default).p_pos_x
         p_pos_y := (arr_get nd.p 0 default).p_pos_y
         p_status := nd.status
         p_stamp := (arr_get nd.p 0 default).p_stamp }] := by
  unfold tx_forward
  have hlt : ¬ (nd.buffer_pointer - 1 < 0) := by omega
  simp only [hlt, if_false, if_neg hok]
  constructor
  · trivial
  · split_ifs <;> simp [transmitted]

/-- The Forward Buffer after a drain on a non-empty buffer whose `SET_HEADER`
succeeds: the old records without the head, in the same order. -/
theorem tx_forward_buffer (ent : entitydata) (e : env) (c_node : Int)
    (nd : node_private) (hlen : (nd.p.length : Int) = BUFFER)
    (h1 : 1 ≤ nd.buffer_pointer) (h10 : nd.buffer_pointer ≤ BUFFER)
    (hok : e.set_header ≠ -1) :
    buffer (tx_forward ent e c_node nd).2.1 = (buffer nd).drop 1 := by
  simp only [BUFFER] at hlen h10
  have hlt : ¬ (nd.buffer_pointer - 1 < 0) := by omega
  have hsucc : nd.buffer_pointer.toNat = (nd.buffer_pointer - 1).toNat + 1 := by omega
  unfold tx_forward buffer
  simp only [hlt, if_false, if_neg hok]
  by_cases hpos : nd.buffer_pointer - 1 > 0
  · simp only [hpos, if_true]
    rw [shift_loop_take nd.p _ (by omega), ← hsucc]
  · have hz : (nd.buffer_pointer - 1).toNat = 0 := by omega
    have ho : nd.buffer_pointer.toNat = 1 := by omega
    simp only [hpos, if_false, hz, ho, List.take_zero]
    cases nd.p <;> simp

end GR

namespace GR

theorem buffer_nonempty_pointer (nd : node_private) (r0 : packet_header)
    (rest : List packet_header) (hbuf : buffer nd = r0 :: rest) : 1 ≤ nd.buffer_pointer := by
  unfold buffer at hbuf
  by_contra hlt
  have hz : nd.buffer_pointer.toNat = 0 := by omega
  rw [hz] at hbuf
  simp at hbuf

/-- One event keeps the array length and the bounds of `buffer_pointer`, and
what was pending or is enqueued by the event is what the event sends or what
is pending afterwards. -/
theorem node_step_fifo (ent : entitydata) (c_node : Int) (nd : node_private)
    (ev : node_event) (hlen : (nd.p.length : Int) = BUFFER)
    (hbp : 0 ≤ nd.buffer_pointer ∧ nd.buffer_pointer ≤ BUFFER - 1) (hok : drain_ok ev) :
    ((node_step ent c_node nd ev).p.length : Int) = BUFFER ∧
    (buffer nd).map origin_seq ++ enqueued_by nd ev =
      sent_by ent c_node nd ev ++ (buffer (node_step ent c_node nd ev)).map origin_seq := by
  cases ev with
  | rx e header =>
    refine ⟨by simp only [node_step, rx_p_length]; exact hlen, ?_⟩
    simp only [node_step, enqueued_by, sent_by, List.nil_append]
    by_cases htype : header.p_type = DATA
    · by_cases hf : rx_data_fwd nd header = 1
      · rw [if_pos ⟨htype, hf⟩, rx_enqueue_buffer ent e c_node nd header htype hf hlen hbp.1]
        simp
      · have hno : ¬ (header.p_type = DATA ∧ rx_data_fwd nd header = 1) := fun h => hf h.2
        obtain ⟨q1, q2, _, _⟩ := (rx_data_effect ent e c_node nd header htype).2 hf
        rw [if_neg hno]
        simp [buffer, q1, q2]
    · have hno : ¬ (header.p_type = DATA ∧ rx_data_fwd nd header = 1) := fun h => htype h.1
      obtain ⟨q1, q2⟩ := rx_other_buffer ent e c_node nd header htype
      rw [if_neg hno]
      simp [buffer, q1, q2]
  | tx_forward e =>
    refine ⟨by simp only [node_step, tx_forward_p_length]; exact hlen, ?_⟩
    have hset : e.set_header ≠ -1 := hok
    simp only [node_step, enqueued_by, sent_by, List.append_nil]
    by_cases h1 : 1 ≤ nd.buffer_pointer
    · have h10 : nd.buffer_pointer ≤ BUFFER := by
        have := hbp.2
        simp only [BUFFER] at this ⊢
        omega
      rw [(tx_forward_transmitted ent e c_node nd h1 hset).2,
        tx_forward_buffer ent e c_node nd hlen h1 h10 hset]
      cases hb : buffer nd with
      | nil =>
        exfalso
        unfold buffer at hb
        have hl := congrArg List.length hb
        simp only [List.length_take, List.length_nil, BUFFER] at hl hlen
        omega
      | cons r0 rest =>
        rw [buffer_head nd r0 rest hb]
        simp [origin_seq]
    · have hz : nd.buffer_pointer = 0 := by omega
      rw [tx_forward_empty ent e c_node nd (by omega)]
      simp [buffer, transmitted, hz]

theorem node_run_fifo (ent : entitydata) (c_node : Int) (evs : List node_event) :
    ∀ nd : node_private, (nd.p.length : Int) = BUFFER →
      (0 ≤ nd.buffer_pointer ∧ nd.buffer_pointer ≤ BUFFER - 1) →
      (∀ ev ∈ evs, drain_ok ev) →
      (buffer nd).map origin_seq ++ enqueued_log ent c_node nd evs =
        sent_log ent c_node nd evs ++ (buffer (node_run ent c_node nd evs)).map origin_seq := by
  induction evs with
  | nil => intro nd _ _ _; simp [enqueued_log, sent_log, node_run]
  | cons ev evs ih =>
    intro nd hlen hbp hok
    obtain ⟨s1, s2⟩ := node_step_fifo ent c_node nd ev hlen hbp
      (hok ev (List.mem_cons_self ev evs))
    have hrec := ih (node_step ent c_node nd ev) s1
      (node_step_buffer_pointer_bound ent c_node nd ev hbp)
      (fun x hx => hok x (List.mem_cons_of_mem ev hx))
    simp only [enqueued_log, sent_log, node_run]
    rw [← List.append_assoc, s2, List.append_assoc, hrec, List.append_assoc]

/-- C9. A successful `tx_forward` on a buffer holding `r0, rest` hands to `TX`
one packet, which carries the origin, sequence number, timestamp and position
of `r0`, and leaves the buffer holding exactly `rest`, in order. Hence, from an
empty buffer and under any sequence of `rx` and drains whose `SET_HEADER`
succeeds, the pairs enqueued are the pairs sent followed by the pairs still
pending: the pairs sent are an initial segment of the pairs enqueued. -/
theorem fifo_forwarding (ent : entitydata) (c_node : Int) :
    (∀ (e : env) (nd : node_private) (r0 : packet_header) (rest : List packet_header),
      (nd.p.length : Int) = BUFFER → nd.buffer_pointer ≤ BUFFER → e.set_header ≠ -1 →
      buffer nd = r0 :: rest →
        (tx_forward ent e c_node nd).1 = 1 ∧
        transmitted (tx_forward ent e c_node nd).2.2 =
          [{ r0 with p_src := c_node, p_dst := -1, p_type := DATA, p_depth := nd.depth,
                     p_status := nd.status }] ∧
        buffer (tx_forward ent e c_node nd).2.1 = rest) ∧
    (∀ (nd : node_private) (evs : List node_event),
      (nd.p.length : Int) = BUFFER → nd.buffer_pointer = 0 → (∀ ev ∈ evs, drain_ok ev) →
        enqueued_log ent c_node nd evs =
          sent_log ent c_node nd evs ++ (buffer (node_run ent c_node nd evs)).map origin_seq ∧
        sent_log ent c_node nd evs <+: enqueued_log ent c_node nd evs) := by
  constructor
  · intro e nd r0 rest hlen h10 hok hbuf
    have h1 := buffer_nonempty_pointer nd r0 rest hbuf
    obtain ⟨t1, t2⟩ := tx_forward_transmitted ent e c_node nd h1 hok
    refine ⟨t1, ?_, ?_⟩
    · rw [t2, buffer_head nd r0 rest hbuf]
    · rw [tx_forward_buffer ent e c_node nd hlen h1 h10 hok, hbuf]
      rfl
  · intro nd evs hlen h0 hok
    have hrun := node_run_fifo ent c_node evs nd hlen (by rw [h0]; decide) hok
    have hempty : buffer nd = [] := by simp [buffer, h0]
    rw [hempty] at hrun
    simp only [List.map_nil, List.nil_append] at hrun
    exact ⟨hrun, ⟨_, hrun.symm⟩⟩

end GR

namespace GR

theorem ex_events_drain_ok : ∀ ev ∈ ex_events, drain_ok ev := by
  intro ev hev
  simp only [ex_events, List.mem_cons, List.mem_singleton] at hev
  have hset : ex_env.set_header ≠ -1 := by decide
  have hnil : ev ∉ ([] : List node_event) := List.not_mem_nil ev
  rcases hev with h | h | h | h | h | h | h
  all_goals first
    | (subst h; exact trivial)
    | (subst h; exact hset)
    | exact absurd h hnil

/-- Witness for C9: at the sensor node 2 the events `ex_events` enqueue the
pairs of sequence numbers 7, 8, 9 and send those of 7 and 8; and a drain of the
relay holding the records 100 and 101 leaves the record 101. -/
theorem fifo_forwarding_witness :
    (ex_sensor.p.length : Int) = BUFFER ∧ ex_sensor.buffer_pointer = 0 ∧
    enqueued_log ex_ent 2 ex_sensor ex_events = [(1, 7), (1, 8), (1, 9)] ∧
    sent_log ex_ent 2 ex_sensor ex_events <+: enqueued_log ex_ent 2 ex_sensor ex_events ∧
    buffer (tx_forward ex_ent ex_env 2 (ex_fill 2)).2.1 = [ex_data 5 1 101 3] :=
  ⟨by decide, by decide, by decide,
   ((fifo_forwarding ex_ent 2).2 ex_sensor ex_events (by decide) (by decide)
      ex_events_drain_ok).2,
   ((fifo_forwarding ex_ent 2).1 ex_env (ex_fill 2) (ex_data 5 1 100 3) [ex_data 5 1 101 3]
      (by decide) (by decide) (by decide) (by decide)).2.2⟩

/-- C10. The DATA packet a successful `tx_forward` broadcasts from a non-empty
Forward Buffer carries the head record's origin, sequence number, origin
timestamp and origin position unchanged; its source is the forwarding node and
its depth is the forwarding node's current depth. -/
theorem tx_forward_packet (ent : entitydata) (e : env) (c_node : Int) (nd : node_private)
    (r0 : packet_header) (rest : List packet_header)
    (hbuf : buffer nd = r0 :: rest) (hok : e.set_header ≠ -1) :
    ∃ h : packet_header,
      transmitted (tx_forward ent e c_node nd).2.2 = [h] ∧
      h.p_type = DATA ∧
      h.p_origin = r0.p_origin ∧ h.p_seqno = r0.p_seqno ∧ h.p_stamp = r0.p_stamp ∧
      h.p_pos_x = r0.p_pos_x ∧ h.p_pos_y = r0.p_pos_y ∧
      h.p_src = c_node ∧ h.p_depth = nd.depth := by
  have h1 := buffer_nonempty_pointer nd r0 rest hbuf
  obtain ⟨_, t2⟩ := tx_forward_transmitted ent e c_node nd h1 hok
  rw [buffer_head nd r0 rest hbuf] at t2
  exact ⟨_, t2, rfl, rfl, rfl, rfl, rfl, rfl, rfl, rfl⟩

/-- Witness for C10: the relay (node 2, depth 2) forwards the record of
sequence number 100 that node 5 sent from depth 3 for origin 1. -/
theorem tx_forward_packet_witness :
    buffer (ex_fill 2) = ex_data 5 1 100 3 :: [ex_data 5 1 101 3] ∧
    ex_env.set_header ≠ -1 ∧
    ∃ h : packet_header,
      transmitted (tx_forward ex_ent ex_env 2 (ex_fill 2)).2.2 = [h] ∧
      h.p_type = DATA ∧
      h.p_origin = (ex_data 5 1 100 3).p_origin ∧ h.p_seqno = (ex_data 5 1 100 3).p_seqno ∧
      h.p_stamp = (ex_data 5 1 100 3).p_stamp ∧
      h.p_pos_x = (ex_data 5 1 100 3).p_pos_x ∧ h.p_pos_y = (ex_data 5 1 100 3).p_pos_y ∧
      h.p_src = 2 ∧ h.p_depth = (ex_fill 2).depth :=
  ⟨by decide, by decide,
   tx_forward_packet ex_ent ex_env 2 (ex_fill 2) (ex_data 5 1 100 3) [ex_data 5 1 101 3]
     (by decide) (by decide)⟩

end GR

namespace GR

/-! ## C11: a DATA packet relayed to the sink -/

/-- A DATA packet leaves the gradient fields alone. -/
theorem rx_data_gradient (ent : entitydata) (e : env) (c_node : Int) (nd : node_private)
    (header : packet_header) (htype : header.p_type = DATA) :
    (rx ent e c_node nd header).1.seqno = nd.seqno ∧
    (rx ent e c_node nd header).1.depth = nd.depth ∧
    (rx ent e c_node nd header).1.status = nd.status := by
  have hb : header.p_type ≠ BUILD := by simp_all
  rw [rx, if_neg hb, if_pos htype]
  rcases rx_data_fwd_cases nd header with h | h | h | h <;>
    simp [rx_data, h, add_seq]

/-- The effect of `rx` when `fwd = 2`: the received counter grows by one and
the delivery is printed; nothing else changes and nothing is scheduled. -/
theorem rx_deliver_effect (ent : entitydata) (e : env) (c_node : Int) (nd : node_private)
    (header : packet_header) (htype : header.p_type = DATA)
    (hf : rx_data_fwd nd header = 2) :
    rx ent e c_node nd header =
      ({ nd with no_packet_recv := nd.no_packet_recv + 1 },
       [effect.printf [(e.time : Int), header.p_origin,
          ((u64 (e.time + (2 ^ 64 - header.p_stamp % 2 ^ 64)) : Nat) : Int),
          header.p_seqno, header.p_src]]) := by
  have hb : header.p_type ≠ BUILD := by simp_all
  rw [rx, if_neg hb, if_pos htype]
  simp [rx_data, hf]

/-- C11. An active relay sensor with an empty buffer that receives a DATA packet
`p` from a greater depth, with a sequence number not in its cache, enqueues
`p`; its next successful `tx_forward` sends the packet `q`, which is `p` with
the relay's source, depth and status; and an active sink of lesser depth than
the relay, whose cache does not hold the sequence number (and whose own buffer
is not full, as it never is), delivers `q`: its received counter grows by one,
nothing is enqueued, and `q` has the origin, sequence number and timestamp of
`p`. -/
theorem forwarding_scenario (ent : entitydata) (e1 e2 e3 : env) (c_relay c_sink : Int)
    (relay sink : node_private) (p : packet_header)
    (hp : p.p_type = DATA)
    (hractive : relay.node_status = NODE_ON) (hrsensor : relay.type = SENSOR)
    (hrempty : relay.buffer_pointer = 0) (hrlen : (relay.p.length : Int) = BUFFER)
    (hrdepth : p.p_depth > relay.depth) (hrfresh : check_seq relay p.p_seqno = 1)
    (hdrain : e2.set_header ≠ -1)
    (hsactive : sink.node_status = NODE_ON) (hssink : sink.type = SINK)
    (hsdepth : sink.depth < relay.depth) (hsfresh : check_seq sink p.p_seqno = 1)
    (hsroom : sink.buffer_pointer < BUFFER - 1) :
    rx_data_fwd relay p = 1 ∧
    buffer (rx ent e1 c_relay relay p).1 = [p] ∧
    transmitted (tx_forward ent e2 c_relay (rx ent e1 c_relay relay p).1).2.2 =
      [{ p with p_src := c_relay, p_dst := -1, p_type := DATA, p_depth := relay.depth,
                p_status := relay.status }] ∧
    ∀ q : packet_header,
      transmitted (tx_forward ent e2 c_relay (rx ent e1 c_relay relay p).1).2.2 = [q] →
        q.p_origin = p.p_origin ∧ q.p_seqno = p.p_seqno ∧ q.p_stamp = p.p_stamp ∧
        rx_data_fwd sink q = 2 ∧
        (rx ent e3 c_sink sink q).1.no_packet_recv = sink.no_packet_recv + 1 ∧
        (rx ent e3 c_sink sink q).1.p = sink.p ∧
        (rx ent e3 c_sink sink q).1.buffer_pointer = sink.buffer_pointer ∧
        (rx ent e3 c_sink sink q).1.seq = sink.seq := by
  have hone : rx_data_fwd relay p = 1 := by
    unfold rx_data_fwd
    rw [if_pos ⟨hrdepth, hractive⟩, if_pos ⟨by rw [hrempty]; decide, hrfresh⟩, if_pos hrsensor]
  have hbuf : buffer (rx ent e1 c_relay relay p).1 = [p] := by
    rw [rx_enqueue_buffer ent e1 c_relay relay p hp hone hrlen (by rw [hrempty])]
    simp [buffer, hrempty]
  have hbp := buffer_nonempty_pointer _ p [] hbuf
  obtain ⟨_, hd, hst⟩ := rx_data_gradient ent e1 c_relay relay p hp
  have htx := (tx_forward_transmitted ent e2 c_relay _ hbp hdrain).2
  rw [buffer_head _ p [] hbuf, hd, hst] at htx
  refine ⟨hone, hbuf, htx, ?_⟩
  intro q hq
  rw [htx] at hq
  have hq1 : q =
      { p with
        p_src := c_relay, p_dst := -1, p_type := DATA, p_depth := relay.depth,
        p_status := relay.status } := by
    simpa using hq.symm
  subst hq1
  have htwo : rx_data_fwd sink
      { p with
        p_src := c_relay, p_dst := -1, p_type := DATA, p_depth := relay.depth,
        p_status := relay.status } = 2 := by
    unfold rx_data_fwd
    have hns : ¬ sink.type = SENSOR := by rw [hssink]; decide
    rw [if_pos ⟨hsdepth, hsactive⟩, if_pos ⟨hsroom, hsfresh⟩, if_neg hns]
  rw [rx_deliver_effect ent e3 c_sink sink _ rfl htwo]
  exact ⟨rfl, rfl, rfl, htwo, rfl, rfl, rfl, rfl⟩

/-- Witness for C11: node 1 at depth 3 originates `DATA(seq = 7)`, the relay
`ex_relay` at depth 2 enqueues and forwards it, and the sink at depth 0
delivers it with origin 1 and sequence number 7. -/
theorem forwarding_scenario_witness :
    ex_origin.depth = 3 ∧ ex_relay.depth = 2 ∧ ex_sink.depth = 0 ∧
    transmitted (tx_data ex_ent6 ex_env 1 ex_origin).2.2.2 = [ex_packet7] ∧
    rx_data_fwd ex_relay ex_packet7 = 1 ∧
    transmitted (tx_forward ex_ent ex_env 2 (rx ex_ent ex_env 2 ex_relay ex_packet7).1).2.2 =
      [{ ex_packet7 with p_src := 2, p_depth := 2 }] ∧
    rx_data_fwd ex_sink { ex_packet7 with p_src := 2, p_depth := 2 } = 2 ∧
    (rx ex_ent ex_env 0 ex_sink { ex_packet7 with p_src := 2, p_depth := 2 }).1.no_packet_recv =
      ex_sink.no_packet_recv + 1 ∧
    ({ ex_packet7 with p_src := 2, p_depth := 2 } : packet_header).p_origin = 1 ∧
    ({ ex_packet7 with p_src := 2, p_depth := 2 } : packet_header).p_seqno = 7 :=
  ⟨by decide, by decide, by decide, by decide,
   (forwarding_scenario ex_ent ex_env ex_env ex_env 2 0 ex_relay ex_sink ex_packet7
      (by decide) (by decide) (by decide) (by decide) (by decide) (by decide) (by decide)
      (by decide) (by decide) (by decide) (by decide) (by decide) (by decide)).1,
   by decide,
   ((forwarding_scenario ex_ent ex_env ex_env ex_env 2 0 ex_relay ex_sink ex_packet7
      (by decide) (by decide) (by decide) (by decide) (by decide) (by decide) (by decide)
      (by decide) (by decide) (by decide) (by decide) (by decide) (by decide)).2.2.2
        { ex_packet7 with p_src := 2, p_depth := 2 } (by decide)).2.2.2.1,
   ((forwarding_scenario ex_ent ex_env ex_env ex_env 2 0 ex_relay ex_sink ex_packet7
      (by decide) (by decide) (by decide) (by decide) (by decide) (by decide) (by decide)
      (by decide) (by decide) (by decide) (by decide) (by decide) (by decide)).2.2.2
        { ex_packet7 with p_src := 2, p_depth := 2 } (by decide)).2.2.2.2.1,
   by decide, by decide⟩

end GR

namespace GR

/-! ## C12: a refresh of the gradient keeps the depths -/

/-- C12. At a node of depth `d` and sequence number `s`, `rx` of a BUILD packet
with a sequence number above `s` sent from depth `d - 1` leaves the depth equal
to `d` and sets the sequence number to the packet's. -/
theorem gradient_refresh (ent : entitydata) (e : env) (c_node : Int) (nd : node_private)
    (header : packet_header) (htype : header.p_type = BUILD)
    (hseq : header.p_seqno > nd.seqno) (hdepth : header.p_depth = nd.depth - 1) :
    (rx ent e c_node nd header).1.depth = nd.depth ∧
    (rx ent e c_node nd header).1.seqno = header.p_seqno := by
  rw [rx, if_pos htype]
  simp only [rx_build, rx_build_update]
  have h1 : nd.seqno < header.p_seqno := hseq
  have h2 : header.p_depth + 1 = nd.depth := by omega
  split_ifs <;> simp_all

/-- Witness for C12, the chain sink - A - B. After the sink's `BUILD(seq = 0,
depth = 0)` and A's re-announcement, A has depth 1 and B depth 2; A then
receives the sink's `BUILD(seq = 1, depth = 0)` and keeps depth 1 with sequence
number 1; after A's second re-announcement both A and B have their depths and
sequence number 1. -/
theorem gradient_refresh_witness :
    (node_of ex_net1 1).depth = 1 ∧ (node_of ex_net1 2).depth = 2 ∧
    (node_of ex_net1 1).seqno = 0 ∧ (ex_build 0 1 0).p_seqno > (node_of ex_net1 1).seqno ∧
    (ex_build 0 1 0).p_depth = (node_of ex_net1 1).depth - 1 ∧
    (rx ex_ent ex_env 1 (node_of ex_net1 1) (ex_build 0 1 0)).1.depth =
      (node_of ex_net1 1).depth ∧
    (rx ex_ent ex_env 1 (node_of ex_net1 1) (ex_build 0 1 0)).1.seqno = 1 ∧
    (node_of ex_net2 1).depth = 1 ∧ (node_of ex_net2 2).depth = 2 ∧
    (node_of ex_net2 1).seqno = 1 ∧ (node_of ex_net2 2).seqno = 1 :=
  ⟨by decide, by decide, by decide, by decide, by decide,
   (gradient_refresh ex_ent ex_env 1 (node_of ex_net1 1) (ex_build 0 1 0) (by decide)
      (by decide) (by decide)).1,
   (gradient_refresh ex_ent ex_env 1 (node_of ex_net1 1) (ex_build 0 1 0) (by decide)
      (by decide) (by decide)).2,
   by decide, by decide, by decide, by decide⟩

end GR

namespace GR

/-! ## C13: the Sequence Cache is a ring of the last ten insertions -/

theorem check_seq_helper_nonneg (seq : List Int) (s : Int) (n : Nat) :
    0 ≤ check_seq_helper seq s n := by
  induction n with
  | zero => simp [check_seq_helper]
  | succ n ih =>
    simp only [check_seq_helper]
    split_ifs <;> omega

/-- The counter of `check_seq` ends positive exactly when one of the slots
compared holds the value. -/
theorem check_seq_helper_pos (seq : List Int) (s : Int) (n : Nat) (hn : n ≤ seq.length) :
    check_seq_helper seq s n > 0 ↔ ∃ i : Nat, i < n ∧ seq[i]? = some s := by
  induction n with
  | zero => simp [check_seq_helper]
  | succ n ih =>
    have hlt : n < seq.length := hn
    have h0 : (0 : Int) ≤ (n : Int) := Int.ofNat_nonneg n
    have hget : arr_get seq (n : Int) 0 = seq[n] := by
      simp [arr_get, List.getD_eq_getElem?_getD, List.getElem?_eq_getElem hlt]
    have hnn := check_seq_helper_nonneg seq s n
    simp only [check_seq_helper, hget]
    constructor
    · intro h
      by_cases hs : seq[n] = s
      · exact ⟨n, Nat.lt_succ_self n, by rw [List.getElem?_eq_getElem hlt, hs]⟩
      · rw [if_neg hs] at h
        obtain ⟨i, hi, hsi⟩ := (ih (Nat.le_of_lt hlt)).mp h
        exact ⟨i, Nat.lt_succ_of_lt hi, hsi⟩
    · rintro ⟨i, hi, hsi⟩
      by_cases hs : seq[n] = s
      · rw [if_pos hs]; omega
      · rw [if_neg hs]
        apply (ih (Nat.le_of_lt hlt)).mpr
        have hne : i ≠ n := by
          intro hin
          subst hin
          rw [List.getElem?_eq_getElem hlt] at hsi
          exact hs (Option.some.inj hsi)
        exact ⟨i, by omega, hsi⟩

/-- On an array of ten slots `check_seq` returns `-1` exactly for the values
the array holds, and `1` for all others. -/
theorem check_seq_iff_mem (nd : node_private) (s : Int)
    (hlen : (nd.seq.length : Int) = SEQUENCE) :
    (check_seq nd s = -1 ↔ s ∈ nd.seq) ∧ (check_seq nd s = 1 ↔ s ∉ nd.seq) := by
  simp only [SEQUENCE] at hlen
  have hn : SEQUENCE.toNat ≤ nd.seq.length := by
    simp only [SEQUENCE]; omega
  have hpos := check_seq_helper_pos nd.seq s SEQUENCE.toNat hn
  have hmem : s ∈ nd.seq ↔ ∃ i : Nat, i < SEQUENCE.toNat ∧ nd.seq[i]? = some s := by
    rw [List.mem_iff_getElem?]
    constructor
    · rintro ⟨i, hi⟩
      have hlt : i < nd.seq.length := (List.getElem?_eq_some.mp hi).1
      exact ⟨i, by simp only [SEQUENCE]; omega, hi⟩
    · rintro ⟨i, _, hi⟩
      exact ⟨i, hi⟩
  unfold check_seq
  by_cases h : check_seq_helper nd.seq s SEQUENCE.toNat > 0
  · have hm : s ∈ nd.seq := hmem.mpr (hpos.mp h)
    rw [if_pos h]
    exact ⟨⟨fun _ => hm, fun _ => rfl⟩, ⟨fun hc => absurd hc (by decide), fun hc => absurd hm hc⟩⟩
  · have hm : s ∉ nd.seq := fun hm => h (hpos.mpr (hmem.mp hm))
    rw [if_neg h]
    exact ⟨⟨fun hc => absurd hc (by decide), fun hc => absurd hc hm⟩, ⟨fun _ => hm, fun _ => rfl⟩⟩

/-- One insertion keeps the ring invariant. -/
theorem add_seq_ring (nd : node_private) (s : Int) (ss : List Int)
    (h : ring_inv nd.seq nd.seq_pointer ss) :
    ring_inv (add_seq nd s).seq (add_seq nd s).seq_pointer (ss ++ [s]) := by
  obtain ⟨hlen, h0, h10, hslots⟩ := h
  simp only [SEQUENCE] at hlen h10
  have hsp : (add_seq nd s).seq_pointer = (nd.seq_pointer + 1) % 10 := by
    simp only [add_seq, SEQUENCE]
    split_ifs <;> omega
  have hsp0 : 0 ≤ (add_seq nd s).seq_pointer := by omega
  have hsp10 : (add_seq nd s).seq_pointer < 10 := by omega
  have hseq : (add_seq nd s).seq =
      nd.seq.set (add_seq nd s).seq_pointer.toNat s := by
    have hh : (add_seq nd s).seq = arr_set nd.seq (add_seq nd s).seq_pointer s := rfl
    rw [hh, arr_set, if_pos hsp0]
  refine ⟨?_, hsp0, by simp only [SEQUENCE]; exact hsp10, ?_⟩
  · rw [hseq, List.length_set]
    simp only [SEQUENCE]
    exact hlen
  · intro j hj hjn
    rw [List.reverse_concat, hseq]
    cases j with
    | zero =>
      have hslot : ((add_seq nd s).seq_pointer.toNat + 10 - 0) % 10 =
          (add_seq nd s).seq_pointer.toNat := by omega
      rw [hslot, List.getElem?_set_self (by omega), List.getElem?_cons_zero]
    | succ k =>
      have hk : k < ss.length := by
        simp only [List.length_append, List.length_singleton] at hjn
        omega
      have hslot : ((add_seq nd s).seq_pointer.toNat + 10 - (k + 1)) % 10 =
          (nd.seq_pointer.toNat + 10 - k) % 10 := by omega
      have hne : (add_seq nd s).seq_pointer.toNat ≠ (nd.seq_pointer.toNat + 10 - k) % 10 := by
        omega
      rw [hslot, List.getElem?_set_ne hne, List.getElem?_cons_succ]
      exact hslots k (by omega) hk

theorem add_seqs_ring (ss : List Int) :
    ∀ (nd : node_private) (ss0 : List Int), ring_inv nd.seq nd.seq_pointer ss0 →
      ring_inv (add_seqs nd ss).seq (add_seqs nd ss).seq_pointer (ss0 ++ ss) := by
  induction ss with
  | nil => intro nd ss0 h; simpa [add_seqs] using h
  | cons s ss ih =>
    intro nd ss0 h
    have := ih (add_seq nd s) (ss0 ++ [s]) (add_seq_ring nd s ss0 h)
    simpa [add_seqs] using this

/-- Under the ring invariant every one of the last insertions is in the
array. -/
theorem ring_inv_recent_mem (seq : List Int) (sp : Int) (ss : List Int) (s : Int)
    (h : ring_inv seq sp ss) (hs : s ∈ last_inserted ss) : s ∈ seq := by
  obtain ⟨_, _, _, hslots⟩ := h
  obtain ⟨j, hj⟩ := List.mem_iff_getElem?.mp hs
  simp only [last_inserted, SEQUENCE, List.getElem?_take] at hj
  have hj10 : j < 10 := by
    by_contra hno
    have hno2 : ¬ j < (10 : Int).toNat := hno
    rw [if_neg hno2] at hj
    exact absurd hj (by simp)
  have hj2 : j < (10 : Int).toNat := hj10
  rw [if_pos hj2] at hj
  have hjn : j < ss.length := by
    have := (List.getElem?_eq_some.mp hj).1
    simpa using this
  exact List.getElem?_mem ((hslots j hj10 hjn).trans hj)

/-- Under the ring invariant, once ten insertions have been made, the array
holds nothing but the last ten. -/
theorem ring_inv_mem_recent (seq : List Int) (sp : Int) (ss : List Int) (s : Int)
    (h : ring_inv seq sp ss) (hn : 10 ≤ ss.length) (hs : s ∈ seq) :
    s ∈ last_inserted ss := by
  obtain ⟨hlen, h0, h10, hslots⟩ := h
  simp only [SEQUENCE] at hlen h10
  obtain ⟨i, hi⟩ := List.mem_iff_getElem?.mp hs
  have hilt : i < seq.length := (List.getElem?_eq_some.mp hi).1
  have hj10 : (sp.toNat + 10 - i) % 10 < 10 := Nat.mod_lt _ (by decide)
  have hslot : (sp.toNat + 10 - (sp.toNat + 10 - i) % 10) % 10 = i := by omega
  have hrev := hslots ((sp.toNat + 10 - i) % 10) hj10 (by omega)
  rw [hslot, hi] at hrev
  apply List.mem_iff_getElem?.mpr
  refine ⟨(sp.toNat + 10 - i) % 10, ?_⟩
  simp only [last_inserted, SEQUENCE, List.getElem?_take]
  have hj2 : (sp.toNat + 10 - i) % 10 < (10 : Int).toNat := hj10
  rw [if_pos hj2]
  exact hrev.symm

/-- C13. On an array of ten slots with `seq_pointer` one of its indices, and
whatever the array holds at first: after any list of `add_seq` insertions,
`check_seq` reports each of the last ten inserted values (all of them when
there are fewer) as present; and once ten insertions have been made,
`check_seq` reports a value as present if and only if it is one of the ten
most recent insertions. -/
theorem seq_cache_ring (nd : node_private) (ss : List Int)
    (hlen : (nd.seq.length : Int) = SEQUENCE)
    (hsp : 0 ≤ nd.seq_pointer ∧ nd.seq_pointer < SEQUENCE) :
    (∀ s ∈ last_inserted ss, check_seq (add_seqs nd ss) s = -1) ∧
    (10 ≤ ss.length →
      ∀ s : Int, (check_seq (add_seqs nd ss) s = -1 ↔ s ∈ last_inserted ss) ∧
        (check_seq (add_seqs nd ss) s = 1 ↔ s ∉ last_inserted ss)) := by
  have hinit : ring_inv nd.seq nd.seq_pointer [] :=
    ⟨hlen, hsp.1, hsp.2, fun j _ hj => absurd hj (Nat.not_lt_zero j)⟩
  have hring := add_seqs_ring ss nd [] hinit
  rw [List.nil_append] at hring
  have hchk := fun s => check_seq_iff_mem (add_seqs nd ss) s hring.1
  constructor
  · intro s hs
    exact (hchk s).1.mpr (ring_inv_recent_mem _ _ ss s hring hs)
  · intro hn s
    have hiff : s ∈ (add_seqs nd ss).seq ↔ s ∈ last_inserted ss :=
      ⟨ring_inv_mem_recent _ _ ss s hring hn, ring_inv_recent_mem _ _ ss s hring⟩
    exact ⟨(hchk s).1.trans hiff, (hchk s).2.trans (not_congr hiff)⟩

/-- Witness for C13: twelve insertions into the cache of a fresh sensor; the
ten most recent are present and the two oldest have been overwritten. -/
theorem seq_cache_ring_witness :
    (ex_sensor.seq.length : Int) = SEQUENCE ∧ ex_sensor.seq_pointer = 0 ∧
    last_inserted [1, 2, 3, 4, 5, 6, 7, 8, 9, 10, 11, 12] =
      [12, 11, 10, 9, 8, 7, 6, 5, 4, 3] ∧
    check_seq (add_seqs ex_sensor [1, 2, 3, 4, 5, 6, 7, 8, 9, 10, 11, 12]) 12 = -1 ∧
    check_seq (add_seqs ex_sensor [1, 2, 3, 4, 5, 6, 7, 8, 9, 10, 11, 12]) 2 = 1 :=
  ⟨by decide, by decide, by decide,
   (seq_cache_ring ex_sensor [1, 2, 3, 4, 5, 6, 7, 8, 9, 10, 11, 12] (by decide)
      (by decide)).1 12 (by decide),
   ((seq_cache_ring ex_sensor [1, 2, 3, 4, 5, 6, 7, 8, 9, 10, 11, 12] (by decide)
      (by decide)).2 (by decide) 2).2.mpr (by decide)⟩

end GR

namespace GR

/-! ## C14: a sequence number in the cache is not forwarded again -/

/-- In the `fwd = 1` branch `rx` inserts the packet's sequence number into the
Sequence Cache. -/
theorem rx_enqueue_seq (ent : entitydata) (e : env) (c_node : Int) (nd : node_private)
    (header : packet_header) (htype : header.p_type = DATA)
    (hf : rx_data_fwd nd header = 1) :
    (rx ent e c_node nd header).1.seq = (add_seq nd header.p_seqno).seq ∧
    (rx ent e c_node nd header).1.seq_pointer = (add_seq nd header.p_seqno).seq_pointer := by
  have hb : header.p_type ≠ BUILD := by simp_all
  rw [rx, if_neg hb, if_pos htype]
  simp [rx_data, hf, add_seq]

/-- A packet that is not a DATA packet leaves the Sequence Cache alone. -/
theorem rx_other_seq (ent : entitydata) (e : env) (c_node : Int) (nd : node_private)
    (header : packet_header) (htype : header.p_type ≠ DATA) :
    (rx ent e c_node nd header).1.seq = nd.seq ∧
    (rx ent e c_node nd header).1.seq_pointer = nd.seq_pointer := by
  unfold rx rx_build rx_build_update
  simp only [if_neg htype]
  split_ifs <;> simp

theorem tx_forward_seq (ent : entitydata) (e : env) (c_node : Int) (nd : node_private) :
    (tx_forward ent e c_node nd).2.1.seq = nd.seq ∧
    (tx_forward ent e c_node nd).2.1.seq_pointer = nd.seq_pointer := by
  unfold tx_forward
  simp only []
  split_ifs <;> simp

theorem rx_data_fwd_one_fresh (nd : node_private) (header : packet_header)
    (h : rx_data_fwd nd header = 1) : check_seq nd header.p_seqno = 1 := by
  unfold rx_data_fwd at h
  split_ifs at h with h1 h2 h3
  · exact h2.2
  all_goals simp at h

/-- One event keeps the ring invariant, the insertions being the sequence
numbers the event enqueues. -/
theorem node_step_ring (ent : entitydata) (c_node : Int) (nd : node_private)
    (ev : node_event) (ss : List Int) (h : ring_inv nd.seq nd.seq_pointer ss) :
    ring_inv (node_step ent c_node nd ev).seq (node_step ent c_node nd ev).seq_pointer
      (ss ++ (enqueued_by nd ev).map Prod.snd) := by
  cases ev with
  | rx e header =>
    simp only [node_step, enqueued_by]
    by_cases htype : header.p_type = DATA
    · by_cases hf : rx_data_fwd nd header = 1
      · obtain ⟨q1, q2⟩ := rx_enqueue_seq ent e c_node nd header htype hf
        rw [if_pos ⟨htype, hf⟩, q1, q2]
        exact add_seq_ring nd header.p_seqno ss h
      · have hno : ¬ (header.p_type = DATA ∧ rx_data_fwd nd header = 1) := fun h => hf h.2
        obtain ⟨_, _, q1, q2⟩ := (rx_data_effect ent e c_node nd header htype).2 hf
        rw [if_neg hno, q1, q2]
        simpa using h
    · have hno : ¬ (header.p_type = DATA ∧ rx_data_fwd nd header = 1) := fun h => htype h.1
      obtain ⟨q1, q2⟩ := rx_other_seq ent e c_node nd header htype
      rw [if_neg hno, q1, q2]
      simpa using h
  | tx_forward e =>
    obtain ⟨q1, q2⟩ := tx_forward_seq ent e c_node nd
    simp only [node_step, enqueued_by, q1, q2]
    simpa using h

theorem node_run_ring (ent : entitydata) (c_node : Int) (evs : List node_event) :
    ∀ (nd : node_private) (ss : List Int), ring_inv nd.seq nd.seq_pointer ss →
      ring_inv (node_run ent c_node nd evs).seq (node_run ent c_node nd evs).seq_pointer
        (ss ++ (enqueued_log ent c_node nd evs).map Prod.snd) := by
  induction evs with
  | nil => intro nd ss h; simpa [node_run, enqueued_log] using h
  | cons ev evs ih =>
    intro nd ss h
    have := ih _ _ (node_step_ring ent c_node nd ev ss h)
    simpa [node_run, enqueued_log, List.append_assoc] using this

/-- C14. Once a node has enqueued a DATA packet with sequence number `s`, then
after any further receptions and drains during which fewer than ten packets
were enqueued, `s` is still in the Sequence Cache and `rx` enqueues no DATA
packet with sequence number `s`, whatever its source and depth: the Forward
Buffer and its length are unchanged. -/
theorem no_reforwarding (ent : entitydata) (c_node : Int) (nd : node_private) (e0 : env)
    (h0 : packet_header) (evs : List node_event)
    (hlen : (nd.seq.length : Int) = SEQUENCE)
    (hsp : 0 ≤ nd.seq_pointer ∧ nd.seq_pointer < SEQUENCE)
    (htype0 : h0.p_type = DATA) (henq : rx_data_fwd nd h0 = 1)
    (hfew : (enqueued_log ent c_node (rx ent e0 c_node nd h0).1 evs).length < 10) :
    ∀ (e : env) (h : packet_header), h.p_type = DATA → h.p_seqno = h0.p_seqno →
      check_seq (node_run ent c_node (rx ent e0 c_node nd h0).1 evs) h.p_seqno = -1 ∧
      rx_data_fwd (node_run ent c_node (rx ent e0 c_node nd h0).1 evs) h ≠ 1 ∧
      (rx ent e c_node (node_run ent c_node (rx ent e0 c_node nd h0).1 evs) h).1.p =
        (node_run ent c_node (rx ent e0 c_node nd h0).1 evs).p ∧
      (rx ent e c_node (node_run ent c_node (rx ent e0 c_node nd h0).1 evs) h).1.buffer_pointer =
        (node_run ent c_node (rx ent e0 c_node nd h0).1 evs).buffer_pointer := by
  intro e h htype hsame
  have hinit : ring_inv nd.seq nd.seq_pointer [] :=
    ⟨hlen, hsp.1, hsp.2, fun j _ hj => absurd hj (Nat.not_lt_zero j)⟩
  have hfirst := node_step_ring ent c_node nd (node_event.rx e0 h0) [] hinit
  simp only [node_step, enqueued_by, if_pos (And.intro htype0 henq), List.nil_append,
    List.map_cons, List.map_nil, origin_seq] at hfirst
  have hring := node_run_ring ent c_node evs _ _ hfirst
  have hmem : h0.p_seqno ∈
      last_inserted ([h0.p_seqno] ++ (enqueued_log ent c_node (rx ent e0 c_node nd h0).1 evs).map
        Prod.snd) := by
    unfold last_inserted
    rw [List.take_of_length_le]
    · simp
    · simp only [SEQUENCE, List.length_reverse, List.length_append, List.length_singleton,
        List.length_map]
      have : (10 : Int).toNat = 10 := rfl
      omega
  have hin := ring_inv_recent_mem _ _ _ _ hring hmem
  have hchk : check_seq (node_run ent c_node (rx ent e0 c_node nd h0).1 evs) h.p_seqno = -1 := by
    rw [hsame]
    exact (check_seq_iff_mem _ _ hring.1).1.mpr hin
  have hne : rx_data_fwd (node_run ent c_node (rx ent e0 c_node nd h0).1 evs) h ≠ 1 := by
    intro hf
    have := rx_data_fwd_one_fresh _ _ hf
    rw [hchk] at this
    exact absurd this (by decide)
  obtain ⟨q1, q2, _, _⟩ := (rx_data_effect ent e c_node _ h htype).2 hne
  exact ⟨hchk, hne, q1, q2⟩

/-- Witness for C14: the relay enqueues sequence number 7, then enqueues 8,
drains, and enqueues 9; a copy of 7 arriving from another neighbour at another
depth is not enqueued. -/
theorem no_reforwarding_witness :
    rx_data_fwd ex_relay (ex_data 5 1 7 3) = 1 ∧
    (enqueued_log ex_ent 2 (rx ex_ent ex_env 2 ex_relay (ex_data 5 1 7 3)).1
      [node_event.rx ex_env (ex_data 5 1 8 3), node_event.tx_forward ex_env,
       node_event.rx ex_env (ex_data 5 1 9 3)]).length = 2 ∧
    rx_data_fwd (node_run ex_ent 2 (rx ex_ent ex_env 2 ex_relay (ex_data 5 1 7 3)).1
      [node_event.rx ex_env (ex_data 5 1 8 3), node_event.tx_forward ex_env,
       node_event.rx ex_env (ex_data 5 1 9 3)]) (ex_data 6 1 7 4) ≠ 1 :=
  ⟨by decide, by decide,
   (no_reforwarding ex_ent 2 ex_relay ex_env (ex_data 5 1 7 3)
      [node_event.rx ex_env (ex_data 5 1 8 3), node_event.tx_forward ex_env,
       node_event.rx ex_env (ex_data 5 1 9 3)] (by decide) (by decide) (by decide) (by decide)
      (by decide) ex_env (ex_data 6 1 7 4) (by decide) (by decide)).2.1⟩

end GR

namespace GR

/-! ## C15: the scheduling of drains -/

/-- What `rx` hands to the scheduler: a drain exactly in the `fwd = 1` branch,
a re-announcement only on a BUILD packet. -/
theorem rx_scheduled (ent : entitydata) (e : env) (c_node : Int) (nd : node_private)
    (header : packet_header) :
    (header.p_type = DATA ∧ rx_data_fwd nd header = 1 →
      scheduled (rx ent e c_node nd header).2 = [callback.tx_forward]) ∧
    (¬ (header.p_type = DATA ∧ rx_data_fwd nd header = 1) →
      callback.tx_forward ∉ scheduled (rx ent e c_node nd header).2) ∧
    (header.p_type ≠ BUILD → callback.tx_build ∉ scheduled (rx ent e c_node nd header).2) := by
  by_cases hb : header.p_type = BUILD
  · have hd : header.p_type ≠ DATA := by rw [hb]; decide
    refine ⟨fun h => absurd h.1 hd, fun _ => ?_, fun h => absurd hb h⟩
    rw [rx, if_pos hb]
    simp only [rx_build]
    split_ifs <;> simp [scheduled]
  · by_cases hd : header.p_type = DATA
    · rw [rx, if_neg hb, if_pos hd]
      rcases rx_data_fwd_cases nd header with h | h | h | h <;>
        simp [rx_data, h, scheduled, hd]
    · rw [rx, if_neg hb, if_neg hd]
      exact ⟨fun h => absurd h.1 hd, fun _ => by simp [scheduled],
        fun _ => by simp [scheduled]⟩

/-- C15, as stated, fails: the relay `ex_fill 1` holds one record, its buffer
is not empty, and `rx` enqueues the DATA packet of sequence number 8 and
schedules a drain all the same; after two enqueues in a row two drains are
pending at the node. -/
theorem rx_drain_latch_counterexample :
    (ex_fill 1).buffer_pointer = 1 ∧ buffer (ex_fill 1) ≠ [] ∧
    rx_data_fwd (ex_fill 1) (ex_data 5 1 8 3) = 1 ∧
    scheduled (rx ex_ent ex_env 2 (ex_fill 1) (ex_data 5 1 8 3)).2 = [callback.tx_forward] ∧
    (sched_run 2 (sched_init ex_ent ex_env 2 ex_raw)
      [sched_event.rx ex_env (ex_build 1 0 1), sched_event.rx ex_env (ex_data 5 1 7 3),
       sched_event.rx ex_env (ex_data 5 1 8 3)]).pending.count callback.tx_forward = 2 := by
  decide

/-- C15, amended. When `rx` enqueues a DATA packet it schedules one drain
(`tx_forward`), at `get_time()` plus a random delay below `Delay`, whether the
Forward Buffer was empty before or not; when `rx` does not enqueue it schedules
no drain. A drain that fires on an empty buffer sends nothing, schedules
nothing and leaves the buffer empty. -/
theorem rx_schedules_drain (ent : entitydata) (e : env) (c_node : Int) (nd : node_private)
    (header : packet_header) :
    (header.p_type = DATA ∧ rx_data_fwd nd header = 1 →
      scheduled (rx ent e c_node nd header).2 = [callback.tx_forward] ∧
      effect.schedule (u64 (e.time + e.random 0 ent.Delay)) callback.tx_forward ∈
        (rx ent e c_node nd header).2) ∧
    (¬ (header.p_type = DATA ∧ rx_data_fwd nd header = 1) →
      callback.tx_forward ∉ scheduled (rx ent e c_node nd header).2) ∧
    (nd.buffer_pointer ≤ 0 →
      tx_forward ent e c_node nd = (-1, { nd with buffer_pointer := 0 }, [])) := by
  refine ⟨fun h => ⟨(rx_scheduled ent e c_node nd header).1 h, ?_⟩,
    (rx_scheduled ent e c_node nd header).2.1, tx_forward_empty ent e c_node nd⟩
  have hb : header.p_type ≠ BUILD := by rw [h.1]; decide
  rw [rx, if_neg hb, if_pos h.1]
  simp [rx_data, h.2]

/-- Witness for the amended C15: an enqueue into the empty buffer of the relay
and an enqueue into its buffer holding one record each schedule one drain. -/
theorem rx_schedules_drain_witness :
    ex_relay.buffer_pointer = 0 ∧
    scheduled (rx ex_ent ex_env 2 ex_relay (ex_data 5 1 7 3)).2 = [callback.tx_forward] ∧
    (ex_fill 1).buffer_pointer = 1 ∧
    scheduled (rx ex_ent ex_env 2 (ex_fill 1) (ex_data 5 1 8 3)).2 = [callback.tx_forward] :=
  ⟨by decide,
   ((rx_schedules_drain ex_ent ex_env 2 ex_relay (ex_data 5 1 7 3)).1
      ⟨by decide, by decide⟩).1,
   by decide,
   ((rx_schedules_drain ex_ent ex_env 2 (ex_fill 1) (ex_data 5 1 8 3)).1
      ⟨by decide, by decide⟩).1⟩

end GR

namespace GR

/-! ## C16: the re-announcement latch -/

/-- The BUILD case of `rx` and the latch: a re-announcement is scheduled, and
`msg_status` set, exactly when the packet is accepted and `msg_status` is
clear. -/
theorem rx_build_latch (ent : entitydata) (e : env) (c_node : Int) (nd : node_private)
    (header : packet_header) (htype : header.p_type = BUILD) :
    ((rx_build_update nd header).2 > 0 ∧ nd.msg_status = MES_NO →
      scheduled (rx ent e c_node nd header).2 = [callback.tx_build] ∧
      (rx ent e c_node nd header).1.msg_status = MES_BU) ∧
    (¬ ((rx_build_update nd header).2 > 0 ∧ nd.msg_status = MES_NO) →
      scheduled (rx ent e c_node nd header).2 = [] ∧
      (rx ent e c_node nd header).1.msg_status = nd.msg_status) := by
  have hms : (rx_build_update nd header).1.msg_status = nd.msg_status := by
    simp only [rx_build_update]
    split_ifs <;> rfl
  rw [rx, if_pos htype]
  simp only [rx_build]
  constructor
  · intro h
    rw [if_pos ⟨h.1, by rw [hms]; exact h.2⟩]
    exact ⟨rfl, rfl⟩
  · intro h
    rw [if_neg (fun hh => h ⟨hh.1, by rw [← hms]; exact hh.2⟩)]
    exact ⟨rfl, hms⟩

/-- What `rx` does to the latch and to the number of re-announcements
scheduled, on any packet. -/
theorem rx_latch_cases (ent : entitydata) (e : env) (c_node : Int) (nd : node_private)
    (header : packet_header) :
    ((rx ent e c_node nd header).1.msg_status = nd.msg_status ∧
      (scheduled (rx ent e c_node nd header).2).count callback.tx_build = 0) ∨
    (nd.msg_status = MES_NO ∧ (rx ent e c_node nd header).1.msg_status = MES_BU ∧
      (scheduled (rx ent e c_node nd header).2).count callback.tx_build = 1) := by
  by_cases hb : header.p_type = BUILD
  · by_cases hacc : (rx_build_update nd header).2 > 0 ∧ nd.msg_status = MES_NO
    · obtain ⟨q1, q2⟩ := (rx_build_latch ent e c_node nd header hb).1 hacc
      exact Or.inr ⟨hacc.2, q2, by rw [q1]; rfl⟩
    · obtain ⟨q1, q2⟩ := (rx_build_latch ent e c_node nd header hb).2 hacc
      exact Or.inl ⟨q2, by rw [q1]; rfl⟩
  · left
    constructor
    · unfold rx rx_data add_seq
      simp only [if_neg hb]
      split_ifs <;> rfl
    · exact List.count_eq_zero.mpr ((rx_scheduled ent e c_node nd header).2.2 hb)

theorem tx_build_latch (ent : entitydata) (e : env) (c_node : Int) (nd : node_private)
    (hsensor : nd.type ≠ SINK) :
    scheduled (tx_build ent e c_node nd).2.2 = [] ∧
    (tx_build ent e c_node nd).2.1.type = nd.type := by
  unfold tx_build
  simp only [if_neg hsensor]
  split_ifs <;> exact ⟨rfl, rfl⟩

theorem tx_data_latch (ent : entitydata) (e : env) (c_node : Int) (nd : node_private) :
    (scheduled (tx_data ent e c_node nd).2.2.2).count callback.tx_build = 0 ∧
    (tx_data ent e c_node nd).2.2.1.type = nd.type ∧
    (tx_data ent e c_node nd).2.2.1.msg_status = nd.msg_status := by
  unfold tx_data
  split_ifs <;> exact ⟨rfl, rfl, rfl⟩

theorem tx_forward_latch (ent : entitydata) (e : env) (c_node : Int) (nd : node_private) :
    (scheduled (tx_forward ent e c_node nd).2.2).count callback.tx_build = 0 ∧
    (tx_forward ent e c_node nd).2.1.type = nd.type ∧
    (tx_forward ent e c_node nd).2.1.msg_status = nd.msg_status := by
  unfold tx_forward
  simp only []
  split_ifs <;> exact ⟨rfl, rfl, rfl⟩

/-- The invariant of a scheduled sensor: at most one re-announcement is
pending, and none when the latch is clear. -/
theorem sched_step_latch (c_node : Int) (s : sched_node) (ev : sched_event)
    (hsensor : s.nd.type ≠ SINK)
    (hone : s.pending.count callback.tx_build ≤ 1)
    (hclear : s.nd.msg_status = MES_NO → s.pending.count callback.tx_build = 0) :
    (sched_step c_node s ev).nd.type ≠ SINK ∧
    (sched_step c_node s ev).pending.count callback.tx_build ≤ 1 ∧
    ((sched_step c_node s ev).nd.msg_status = MES_NO →
      (sched_step c_node s ev).pending.count callback.tx_build = 0) := by
  cases ev with
  | rx e header =>
    simp only [sched_step, List.count_append]
    refine ⟨by rw [rx_type]; exact hsensor, ?_⟩
    rcases rx_latch_cases s.ent e c_node s.nd header with ⟨q1, q2⟩ | ⟨q1, q2, q3⟩
    · rw [q1, q2]
      exact ⟨by omega, fun h => by rw [hclear h]⟩
    · rw [q2, q3, hclear q1]
      exact ⟨by omega, fun h => absurd h (by decide)⟩
  | fire e cb =>
    simp only [sched_step]
    by_cases hp : cb ∈ s.pending
    · rw [if_pos hp]
      cases cb with
      | tx_build =>
        obtain ⟨q1, q2⟩ := tx_build_latch s.ent e c_node s.nd hsensor
        simp only [run_callback, List.count_append, q1, List.count_nil, Nat.add_zero,
          List.count_erase_self]
        exact ⟨by rw [q2]; exact hsensor, by omega, fun _ => by omega⟩
      | tx_data =>
        obtain ⟨q1, q2, q3⟩ := tx_data_latch s.ent e c_node s.nd
        have hne : callback.tx_build ≠ callback.tx_data := by decide
        simp only [run_callback, List.count_append, q1, Nat.add_zero,
          List.count_erase_of_ne hne]
        exact ⟨by rw [q2]; exact hsensor, hone, fun h => hclear (by rw [← q3]; exact h)⟩
      | tx_forward =>
        obtain ⟨q1, q2, q3⟩ := tx_forward_latch s.ent e c_node s.nd
        have hne : callback.tx_build ≠ callback.tx_forward := by decide
        simp only [run_callback, List.count_append, q1, Nat.add_zero,
          List.count_erase_of_ne hne]
        exact ⟨by rw [q2]; exact hsensor, hone, fun h => hclear (by rw [← q3]; exact h)⟩
    · rw [if_neg hp]
      exact ⟨hsensor, hone, hclear⟩

theorem sched_run_latch (c_node : Int) (evs : List sched_event) :
    ∀ s : sched_node, s.nd.type ≠ SINK → s.pending.count callback.tx_build ≤ 1 →
      (s.nd.msg_status = MES_NO → s.pending.count callback.tx_build = 0) →
      (sched_run c_node s evs).pending.count callback.tx_build ≤ 1 := by
  induction evs with
  | nil => intro s _ h _; exact h
  | cons ev evs ih =>
    intro s h1 h2 h3
    obtain ⟨q1, q2, q3⟩ := sched_step_latch c_node s ev h1 h2 h3
    exact ih _ q1 q2 q3

theorem sched_init_latch (ent : entitydata) (e : env) (c_node : Int) (raw : node_private)
    (hnode : c_node ≠ 0) :
    (sched_init ent e c_node raw).nd.type ≠ SINK ∧
    (sched_init ent e c_node raw).pending.count callback.tx_build = 0 := by
  simp only [sched_init, setnode, bootstrap, if_neg hnode]
  have hns : ¬ (SENSOR = SINK) := by decide
  simp only [if_neg hns]
  split_ifs <;> exact ⟨hns, rfl⟩

/-- C16. On a BUILD packet `rx` schedules a `tx_build` callback if and only if
the packet is accepted and `msg_status` is clear, and it then sets
`msg_status`. Hence, from the initial state of a sensor, under any receptions
and any firings of pending callbacks, at most one `tx_build` callback is
scheduled and not yet fired. -/
theorem announce_latch (ent : entitydata) (c_node : Int) :
    (∀ (e : env) (nd : node_private) (header : packet_header), header.p_type = BUILD →
      (callback.tx_build ∈ scheduled (rx ent e c_node nd header).2 ↔
        ((rx_build_update nd header).2 > 0 ∧ nd.msg_status = MES_NO)) ∧
      ((rx_build_update nd header).2 > 0 ∧ nd.msg_status = MES_NO →
        scheduled (rx ent e c_node nd header).2 = [callback.tx_build] ∧
        (rx ent e c_node nd header).1.msg_status = MES_BU)) ∧
    (∀ (e : env) (raw : node_private) (evs : List sched_event), c_node ≠ 0 →
      (sched_run c_node (sched_init ent e c_node raw) evs).pending.count
        callback.tx_build ≤ 1) := by
  constructor
  · intro e nd header htype
    obtain ⟨q1, q2⟩ := rx_build_latch ent e c_node nd header htype
    refine ⟨⟨?_, fun h => by rw [(q1 h).1]; simp⟩, q1⟩
    intro hmem
    by_contra hno
    rw [(q2 hno).1] at hmem
    simp at hmem
  · intro e raw evs hnode
    obtain ⟨i1, i2⟩ := sched_init_latch ent e c_node raw hnode
    exact sched_run_latch c_node evs _ i1 (by omega) (fun _ => i2)

/-- Witness for C16: the sensor node 2 accepts two BUILD packets in a row, the
second by a shorter path; one re-announcement is pending, and after it has
fired and a third BUILD packet is accepted one is pending again. -/
theorem announce_latch_witness :
    (2 : Int) ≠ 0 ∧
    (sched_run 2 (sched_init ex_ent ex_env 2 ex_raw)
      [sched_event.rx ex_env (ex_build 1 0 3),
       sched_event.rx ex_env (ex_build 3 0 1)]).pending = [callback.tx_build] ∧
    (sched_run 2 (sched_init ex_ent ex_env 2 ex_raw)
      [sched_event.rx ex_env (ex_build 1 0 3), sched_event.rx ex_env (ex_build 3 0 1),
       sched_event.fire ex_env callback.tx_build,
       sched_event.rx ex_env (ex_build 3 1 1)]).pending.count callback.tx_build ≤ 1 :=
  ⟨by decide, by decide,
   (announce_latch ex_ent 2).2 ex_env ex_raw
     [sched_event.rx ex_env (ex_build 1 0 3), sched_event.rx ex_env (ex_build 3 0 1),
      sched_event.fire ex_env callback.tx_build,
      sched_event.rx ex_env (ex_build 3 1 1)] (by decide)⟩

end GR

namespace GR

/-! ## C17: the postcondition of `tx_build` -/

/-- C17. A `tx_build` whose `SET_HEADER` succeeds returns 1 and broadcasts one
BUILD packet, whose source is the node, whose depth is the node's depth and
whose sequence number is the node's `seqno`; it clears `msg_status` and leaves
depth and parent unchanged. At the sink it then adds exactly one to `seqno` and
schedules the next `tx_build` at `get_time() + 10 * Period` (in 64-bit
arithmetic); at any other node `seqno` is unchanged and nothing is
scheduled. -/
theorem tx_build_post (ent : entitydata) (e : env) (c_node : Int) (nd : node_private)
    (hok : e.set_header ≠ -1) :
    (tx_build ent e c_node nd).1 = 1 ∧
    transmitted (tx_build ent e c_node nd).2.2 =
      [{ p_src := c_node, p_dst := -1, p_type := BUILD, p_seqno := nd.seqno,
         p_depth := nd.depth, p_origin := c_node, p_status := nd.status,
         p_pos_x := e.pos_x, p_pos_y := e.pos_y, p_stamp := e.time }] ∧
    (tx_build ent e c_node nd).2.1.msg_status = MES_NO ∧
    (tx_build ent e c_node nd).2.1.depth = nd.depth ∧
    (tx_build ent e c_node nd).2.1.from_ = nd.from_ ∧
    (nd.type = SINK →
      (tx_build ent e c_node nd).2.1.seqno = nd.seqno + 1 ∧
      scheduled (tx_build ent e c_node nd).2.2 = [callback.tx_build] ∧
      effect.schedule (u64 (e.time + u64 (10 * ent.Period))) callback.tx_build ∈
        (tx_build ent e c_node nd).2.2 ∧
      (e.time + 10 * ent.Period < 2 ^ 64 →
        u64 (e.time + u64 (10 * ent.Period)) = e.time + 10 * ent.Period)) ∧
    (nd.type ≠ SINK →
      (tx_build ent e c_node nd).2.1.seqno = nd.seqno ∧
      scheduled (tx_build ent e c_node nd).2.2 = []) := by
  by_cases hs : nd.type = SINK
  · have hr : tx_build ent e c_node nd =
        (1, { nd with msg_status := MES_NO, seqno := nd.seqno + 1 },
         [effect.TX { p_src := c_node, p_dst := -1, p_type := BUILD, p_seqno := nd.seqno,
                      p_depth := nd.depth, p_origin := c_node, p_status := nd.status,
                      p_pos_x := e.pos_x, p_pos_y := e.pos_y, p_stamp := e.time },
          effect.schedule (u64 (e.time + u64 (10 * ent.Period))) callback.tx_build]) := by
      simp [tx_build, hok, hs]
    rw [hr]
    refine ⟨rfl, rfl, rfl, rfl, rfl, fun _ => ⟨rfl, rfl, by simp, ?_⟩, fun h => absurd hs h⟩
    intro hlt
    have h1 : 10 * ent.Period < 2 ^ 64 := by omega
    simp only [u64, Nat.mod_eq_of_lt h1, Nat.mod_eq_of_lt hlt]
  · have hr : tx_build ent e c_node nd =
        (1, { nd with msg_status := MES_NO },
         [effect.TX { p_src := c_node, p_dst := -1, p_type := BUILD, p_seqno := nd.seqno,
                      p_depth := nd.depth, p_origin := c_node, p_status := nd.status,
                      p_pos_x := e.pos_x, p_pos_y := e.pos_y, p_stamp := e.time }]) := by
      have hs1 : ¬ nd.type = 1 := hs
      simp [tx_build, hok, hs1]
    rw [hr]
    exact ⟨rfl, rfl, rfl, rfl, rfl, fun h => absurd h hs, fun _ => ⟨rfl, rfl⟩⟩

/-- Witness for C17: the first heartbeat of the sink, which sends
`BUILD(seq = 0, depth = 0)`, moves to sequence number 1 and schedules the next
heartbeat ten periods later. -/
theorem tx_build_post_witness :
    ex_env.set_header ≠ -1 ∧ ex_sink.type = SINK ∧
    (tx_build ex_ent ex_env 0 ex_sink).2.1.seqno = ex_sink.seqno + 1 ∧
    (tx_build ex_ent ex_env 0 ex_sink).2.1.msg_status = MES_NO ∧
    effect.schedule (1000 + 10 * 10000000000) callback.tx_build ∈
      (tx_build ex_ent ex_env 0 ex_sink).2.2 :=
  ⟨by decide, by decide,
   ((tx_build_post ex_ent ex_env 0 ex_sink (by decide)).2.2.2.2.2.1 (by decide)).1,
   (tx_build_post ex_ent ex_env 0 ex_sink (by decide)).2.2.1,
   by decide⟩

/-! ## C18: the sequence numbers of originated packets -/

/-- What one invocation of `tx_data` does: nothing is sent and the entity data
and the send counter are unchanged (node not active, or `SET_HEADER` failed), or
one packet is sent with the next sequence number. -/
theorem tx_data_cases (ent : entitydata) (e : env) (c_node : Int) (nd : node_private) :
    (¬ (nd.node_status = NODE_ON ∧ e.set_header ≠ -1) ∧
      transmitted (tx_data ent e c_node nd).2.2.2 = [] ∧
      (tx_data ent e c_node nd).2.1 = ent ∧
      (tx_data ent e c_node nd).2.2.1 = nd) ∨
    ((nd.node_status = NODE_ON ∧ e.set_header ≠ -1) ∧
      (tx_data ent e c_node nd).1 = 1 ∧
      transmitted (tx_data ent e c_node nd).2.2.2 =
        [{ p_src := c_node, p_dst := -1, p_type := DATA, p_seqno := ent.packet_seq + 1,
           p_depth := nd.depth, p_origin := c_node, p_status := nd.status,
           p_pos_x := e.pos_x, p_pos_y := e.pos_y, p_stamp := e.time }] ∧
      (tx_data ent e c_node nd).2.1.packet_seq = ent.packet_seq + 1 ∧
      (tx_data ent e c_node nd).2.2.1.no_packet_sent = nd.no_packet_sent + 1 ∧
      scheduled (tx_data ent e c_node nd).2.2.2 = [callback.tx_data]) := by
  unfold tx_data
  by_cases ha : nd.node_status = NODE_ON
  · by_cases hs : e.set_header = -1
    · left
      rw [if_neg (not_not.mpr ha), if_pos hs]
      exact ⟨fun h => h.2 hs, rfl, rfl, rfl⟩
    · right
      rw [if_neg (not_not.mpr ha), if_neg hs]
      exact ⟨⟨ha, hs⟩, rfl, rfl, rfl, rfl, rfl⟩
  · left
    rw [if_pos ha]
    exact ⟨fun h => ha h.1, rfl, rfl, rfl⟩

/-- The packets of successive originations are numbered consecutively from the
entity's `packet_seq`. -/
theorem tx_data_run_seqno (c_node : Int) (invs : List (env × node_private)) :
    ∀ (ent : entitydata) (i : Nat) (h : packet_header),
      (tx_data_run ent c_node invs).2[i]? = some h →
        h.p_seqno = ent.packet_seq + 1 + (i : Int) := by
  induction invs with
  | nil => intro ent i h hi; simp [tx_data_run] at hi
  | cons inv invs ih =>
    intro ent i h hi
    obtain ⟨e, nd⟩ := inv
    simp only [tx_data_run] at hi
    rcases tx_data_cases ent e c_node nd with ⟨_, q1, q2, _⟩ | ⟨_, _, q1, q2, _, _⟩
    · rw [q1, q2, List.nil_append] at hi
      exact ih ent i h hi
    · rw [q1] at hi
      cases i with
      | zero =>
        simp only [List.singleton_append, List.getElem?_cons_zero, Option.some.injEq] at hi
        rw [← hi]
        simp
      | succ k =>
        simp only [List.singleton_append, List.getElem?_cons_succ] at hi
        have := ih _ k h hi
        rw [q2] at this
        rw [this]
        push_cast
        omega

/-- C18. A `tx_data` at an active node whose `SET_HEADER` succeeds sends one
DATA packet whose sequence number is the entity's `packet_seq` plus one, which
becomes the new `packet_seq`, with source and origin the node and the node's
depth, adds one to the send counter and reschedules itself; so the packets of
successive originations carry consecutive sequence numbers. A `tx_data` at a
node that is not active sends nothing, leaves `packet_seq` and the send counter
unchanged and reschedules itself. -/
theorem tx_data_fresh (ent : entitydata) (c_node : Int) :
    (∀ (e : env) (nd : node_private), nd.node_status = NODE_ON → e.set_header ≠ -1 →
      (∃ h : packet_header, transmitted (tx_data ent e c_node nd).2.2.2 = [h] ∧
        h.p_type = DATA ∧ h.p_seqno = ent.packet_seq + 1 ∧ h.p_src = c_node ∧
        h.p_origin = c_node ∧ h.p_depth = nd.depth ∧
        (tx_data ent e c_node nd).2.1.packet_seq = h.p_seqno) ∧
      (tx_data ent e c_node nd).2.2.1.no_packet_sent = nd.no_packet_sent + 1 ∧
      scheduled (tx_data ent e c_node nd).2.2.2 = [callback.tx_data]) ∧
    (∀ (invs : List (env × node_private)) (i j : Nat) (h k : packet_header),
      (tx_data_run ent c_node invs).2[i]? = some h →
      (tx_data_run ent c_node invs).2[j]? = some k →
        h.p_seqno = ent.packet_seq + 1 + (i : Int) ∧
        (j = i + 1 → k.p_seqno = h.p_seqno + 1) ∧
        (i < j → h.p_seqno < k.p_seqno)) ∧
    (∀ (e : env) (nd : node_private), nd.node_status ≠ NODE_ON →
      transmitted (tx_data ent e c_node nd).2.2.2 = [] ∧
      (tx_data ent e c_node nd).2.1 = ent ∧
      (tx_data ent e c_node nd).2.2.1 = nd ∧
      scheduled (tx_data ent e c_node nd).2.2.2 = [callback.tx_data]) := by
  refine ⟨?_, ?_, ?_⟩
  · intro e nd ha hs
    rcases tx_data_cases ent e c_node nd with ⟨hno, _⟩ | ⟨_, _, q1, q2, q3, q4⟩
    · exact absurd ⟨ha, hs⟩ hno
    · exact ⟨⟨_, q1, rfl, rfl, rfl, rfl, rfl, q2⟩, q3, q4⟩
  · intro invs i j h k hi hj
    have h1 := tx_data_run_seqno c_node invs ent i h hi
    have h2 := tx_data_run_seqno c_node invs ent j k hj
    refine ⟨h1, ?_, ?_⟩
    · intro hij
      rw [h1, h2, hij]
      push_cast
      omega
    · intro hij
      rw [h1, h2]
      omega
  · intro e nd ha
    rcases tx_data_cases ent e c_node nd with ⟨_, q1, q2, q3⟩ | ⟨hyes, _⟩
    · refine ⟨q1, q2, q3, ?_⟩
      unfold tx_data
      rw [if_pos ha]
      rfl
    · exact absurd hyes.1 ha

/-- Witness for C18: node 1, active at depth 3, originates the packet of
sequence number 7 when six packets have been originated; invoked before it is
active, it sends nothing. -/
theorem tx_data_fresh_witness :
    ex_origin.node_status = NODE_ON ∧ ex_env.set_header ≠ -1 ∧
    (tx_data ex_ent6 ex_env 1 ex_origin).2.2.1.no_packet_sent =
      ex_origin.no_packet_sent + 1 ∧
    transmitted (tx_data ex_ent6 ex_env 1 ex_origin).2.2.2 = [ex_packet7] ∧
    ex_sensor.node_status ≠ NODE_ON ∧
    transmitted (tx_data ex_ent6 ex_env 2 ex_sensor).2.2.2 = [] :=
  ⟨by decide, by decide,
   ((tx_data_fresh ex_ent6 1).1 ex_env ex_origin (by decide) (by decide)).2.1,
   by decide, by decide,
   ((tx_data_fresh ex_ent6 1).2.2 ex_env ex_sensor (by decide)).1⟩

end GR

namespace GR

/-! ## C19: the header fields a relay rewrites -/

/-- C19, as stated, fails: the relay enqueues the DATA packet `ex_moving`,
whose status field is `MOVING`, and the packet its `tx_forward` sends has the
relay's own status, `STATIC`. -/
theorem tx_forward_status_counterexample :
    rx_data_fwd ex_relay ex_moving = 1 ∧
    buffer (rx ex_ent ex_env 2 ex_relay ex_moving).1 = [ex_moving] ∧
    ex_moving.p_status = MOVING ∧
    transmitted (tx_forward ex_ent ex_env 2 (rx ex_ent ex_env 2 ex_relay ex_moving).1).2.2 =
      [{ ex_moving with p_src := 2, p_depth := 2, p_status := STATIC }] ∧
    ¬ (∀ h ∈ transmitted
        (tx_forward ex_ent ex_env 2 (rx ex_ent ex_env 2 ex_relay ex_moving).1).2.2,
      h.p_status = ex_moving.p_status) := by
  decide

/-- C19, amended. The packet a successful `tx_forward` sends from a non-empty
Forward Buffer has the forwarding node's own status as its status field, not
the head record's: source, depth and status are rewritten with the forwarding
node's own values, the destination is `-1` and the type `DATA`, and the origin,
sequence number, timestamp and position are those of the head record. -/
theorem tx_forward_status (ent : entitydata) (e : env) (c_node : Int) (nd : node_private)
    (r0 : packet_header) (rest : List packet_header)
    (hbuf : buffer nd = r0 :: rest) (hok : e.set_header ≠ -1) :
    transmitted (tx_forward ent e c_node nd).2.2 =
      [{ r0 with p_src := c_node, p_dst := -1, p_type := DATA, p_depth := nd.depth,
                 p_status := nd.status }] ∧
    ∀ h ∈ transmitted (tx_forward ent e c_node nd).2.2,
      h.p_status = nd.status ∧ h.p_src = c_node ∧ h.p_depth = nd.depth ∧
      h.p_dst = -1 ∧ h.p_type = DATA ∧
      h.p_origin = r0.p_origin ∧ h.p_seqno = r0.p_seqno ∧ h.p_stamp = r0.p_stamp ∧
      h.p_pos_x = r0.p_pos_x ∧ h.p_pos_y = r0.p_pos_y := by
  have h1 := buffer_nonempty_pointer nd r0 rest hbuf
  have htx := (tx_forward_transmitted ent e c_node nd h1 hok).2
  rw [buffer_head nd r0 rest hbuf] at htx
  refine ⟨htx, ?_⟩
  intro h hh
  rw [htx, List.mem_singleton] at hh
  subst hh
  exact ⟨rfl, rfl, rfl, rfl, rfl, rfl, rfl, rfl, rfl, rfl⟩

/-- Witness for the amended C19: the relay forwards `ex_moving` with its own
status. -/
theorem tx_forward_status_witness :
    buffer (rx ex_ent ex_env 2 ex_relay ex_moving).1 = ex_moving :: [] ∧
    ex_env.set_header ≠ -1 ∧
    transmitted (tx_forward ex_ent ex_env 2 (rx ex_ent ex_env 2 ex_relay ex_moving).1).2.2 =
      [{ ex_moving with p_src := 2, p_depth := 2, p_status := ex_relay.status }] :=
  ⟨by decide, by decide,
   ((tx_forward_status ex_ent ex_env 2 (rx ex_ent ex_env 2 ex_relay ex_moving).1 ex_moving []
      (by decide) (by decide)).1).trans (by decide)⟩

/-! ## C20: a drain whose `SET_HEADER` fails -/

/-- The Forward Buffer after a drain whose `SET_HEADER` fails: `buffer_pointer`
has been decremented and nothing has been shifted, so the buffer has lost its
last record and kept its head. -/
theorem tx_forward_fail_buffer (ent : entitydata) (e : env) (c_node : Int)
    (nd : node_private) (h1 : 1 ≤ nd.buffer_pointer) (hfail : e.set_header = -1) :
    (tx_forward ent e c_node nd).1 = -1 ∧
    (tx_forward ent e c_node nd).2.2 = [] ∧
    (tx_forward ent e c_node nd).2.1.p = nd.p ∧
    (tx_forward ent e c_node nd).2.1.buffer_pointer = nd.buffer_pointer - 1 ∧
    buffer (tx_forward ent e c_node nd).2.1 = (buffer nd).take (nd.buffer_pointer - 1).toNat := by
  have hlt : ¬ (nd.buffer_pointer - 1 < 0) := by omega
  have hr : tx_forward ent e c_node nd =
      (-1, { nd with buffer_pointer := nd.buffer_pointer - 1 }, []) := by
    simp [tx_forward, hlt, hfail]
  rw [hr]
  refine ⟨rfl, rfl, rfl, rfl, ?_⟩
  simp only [buffer, List.take_take]
  congr 1
  omega

/-- C20 at the failing input. The relay `ex_fill 2` holds the records of
sequence numbers 100 and 101; after a `tx_forward` whose `SET_HEADER` fails it
holds the record 100 alone: the record 101, which is not the head, is no longer
pending, nothing was sent and the drop counter is unchanged; the next
successful drain sends 100 and leaves the buffer empty. -/
theorem tx_forward_fail_drops_tail :
    buffer (ex_fill 2) = [ex_data 5 1 100 3, ex_data 5 1 101 3] ∧
    (tx_forward ex_ent ex_env_fail 2 (ex_fill 2)).1 = -1 ∧
    (tx_forward ex_ent ex_env_fail 2 (ex_fill 2)).2.2 = [] ∧
    buffer (tx_forward ex_ent ex_env_fail 2 (ex_fill 2)).2.1 = [ex_data 5 1 100 3] ∧
    ex_data 5 1 101 3 ∉ buffer (tx_forward ex_ent ex_env_fail 2 (ex_fill 2)).2.1 ∧
    (tx_forward ex_ent ex_env_fail 2 (ex_fill 2)).2.1.no_packet_drop =
      (ex_fill 2).no_packet_drop ∧
    (transmitted (tx_forward ex_ent ex_env 2
      (tx_forward ex_ent ex_env_fail 2 (ex_fill 2)).2.1).2.2).map origin_seq = [(1, 100)] ∧
    buffer (tx_forward ex_ent ex_env 2
      (tx_forward ex_ent ex_env_fail 2 (ex_fill 2)).2.1).2.1 = [] := by
  decide

end GR

namespace GR

/-! ## The Forward Buffer of a node that is not a sensor stays empty -/

theorem rx_data_fwd_one_sensor (nd : node_private) (header : packet_header)
    (h : rx_data_fwd nd header = 1) : nd.type = SENSOR := by
  unfold rx_data_fwd at h
  split_ifs at h with h1 h2 h3
  · exact h3
  all_goals simp at h

/-- At a node whose type is not `SENSOR` (the sink) and whose Forward Buffer is
empty, no reception and no drain makes `buffer_pointer` leave 0: the buffer of
the sink is not full in any state the sink reaches. -/
theorem sink_buffer_stays_empty (ent : entitydata) (c_node : Int) (evs : List node_event) :
    ∀ nd : node_private, nd.type ≠ SENSOR → nd.buffer_pointer = 0 →
      (node_run ent c_node nd evs).type ≠ SENSOR ∧
        (node_run ent c_node nd evs).buffer_pointer = 0 := by
  induction evs with
  | nil => intro nd ht h0; exact ⟨ht, h0⟩
  | cons ev evs ih =>
    intro nd ht h0
    apply ih
    · cases ev with
      | rx e header => simp only [node_step, rx_type]; exact ht
      | tx_forward e =>
        simp only [node_step, (tx_forward_gradient ent e c_node nd).2.2.1]
        exact ht
    · cases ev with
      | rx e header =>
        simp only [node_step]
        by_cases htype : header.p_type = DATA
        · have hf : rx_data_fwd nd header ≠ 1 := fun hf =>
            ht (rx_data_fwd_one_sensor nd header hf)
          rw [((rx_data_effect ent e c_node nd header htype).2 hf).2.1]
          exact h0
        · rw [(rx_other_buffer ent e c_node nd header htype).2]
          exact h0
      | tx_forward e =>
        simp only [node_step, tx_forward_buffer_pointer, h0]
        rfl

end GR

namespace GR

/-! ## C21: the BUILD acceptance rule at the sink -/

/-- C21, as stated, fails: the sink (depth 0, sequence number 0) receives
`BUILD(seq = 5, depth = -1)` from node 3; the packet's sequence number is above
the sink's, the packet is accepted, and the sink's depth, set to `-1 + 1`, is
still 0, while its sequence number becomes 5 and its parent 3. -/
theorem rx_sink_build_counterexample :
    ex_sink.type = SINK ∧ ex_sink.depth = 0 ∧ ex_sink.seqno = 0 ∧
    (ex_build 3 5 (-1)).p_type = BUILD ∧
    (rx ex_ent ex_env 0 ex_sink (ex_build 3 5 (-1))).1.depth = 0 ∧
    ¬ ((ex_build 3 5 (-1)).p_seqno ≤ ex_sink.seqno ∧ (ex_build 3 5 (-1)).p_depth ≥ -1) ∧
    (rx_build_update ex_sink (ex_build 3 5 (-1))).2 > 0 ∧
    (rx ex_ent ex_env 0 ex_sink (ex_build 3 5 (-1))).1.seqno = 5 ∧
    (rx ex_ent ex_env 0 ex_sink (ex_build 3 5 (-1))).1.from_ = 3 := by
  decide

/-- C21, amended. `rx` applies the BUILD acceptance rule whatever the node's
type: at a node of depth 0 and sequence number `s`, the sink included, a BUILD
packet with a sequence number above `s` sets the depth to the packet's depth
plus one and the parent to the packet's source. A BUILD packet leaves the
gradient state of such a node untouched (it is not accepted) exactly when its
sequence number is at most `s` and its depth at least `-1`; the depth is 0
after `rx` exactly for those packets and for the packets of depth `-1`, which,
when their sequence number is above `s`, are accepted and set the depth to 0
again. -/
theorem rx_sink_build (ent : entitydata) (e : env) (c_node : Int) (nd : node_private)
    (header : packet_header) (htype : header.p_type = BUILD) (hdepth : nd.depth = 0) :
    (∀ t : Int,
      (rx ent e c_node { nd with type := t } header).1.depth =
        (rx ent e c_node nd header).1.depth ∧
      (rx ent e c_node { nd with type := t } header).1.seqno =
        (rx ent e c_node nd header).1.seqno ∧
      (rx ent e c_node { nd with type := t } header).1.from_ =
        (rx ent e c_node nd header).1.from_) ∧
    (header.p_seqno > nd.seqno →
      (rx ent e c_node nd header).1.depth = header.p_depth + 1 ∧
      (rx ent e c_node nd header).1.from_ = header.p_src) ∧
    ((rx_build_update nd header).2 = 0 ↔
      (header.p_seqno ≤ nd.seqno ∧ header.p_depth ≥ -1)) ∧
    ((header.p_seqno ≤ nd.seqno ∧ header.p_depth ≥ -1) →
      (rx ent e c_node nd header).1.depth = 0 ∧
      (rx ent e c_node nd header).1.seqno = nd.seqno ∧
      (rx ent e c_node nd header).1.from_ = nd.from_) ∧
    ((rx ent e c_node nd header).1.depth = 0 ↔
      ((header.p_seqno ≤ nd.seqno ∧ header.p_depth ≥ -1) ∨ header.p_depth = -1)) := by
  refine ⟨?_, ?_, ?_, ?_, ?_⟩
  · intro t
    rw [rx, rx, if_pos htype, if_pos htype]
    simp only [rx_build, rx_build_update]
    split_ifs <;> simp_all
  · intro h
    rw [rx, if_pos htype]
    simp only [rx_build, rx_build_update]
    split_ifs <;> simp_all
  · simp only [rx_build_update, hdepth]
    split_ifs <;> simp_all <;> omega
  · intro h
    rw [rx, if_pos htype]
    simp only [rx_build, rx_build_update, hdepth]
    split_ifs <;> simp_all <;> omega
  · rw [rx, if_pos htype]
    simp only [rx_build, rx_build_update, hdepth]
    split_ifs <;> simp_all <;> omega

/-- Witness for the amended C21: the sink accepts `BUILD(seq = 5, depth = 2)`
from node 3 and takes depth 3 with parent 3. -/
theorem rx_sink_build_witness :
    (ex_build 3 5 2).p_type = BUILD ∧ ex_sink.depth = 0 ∧ ex_sink.type = SINK ∧
    (ex_build 3 5 2).p_seqno > ex_sink.seqno ∧
    (rx ex_ent ex_env 0 ex_sink (ex_build 3 5 2)).1.depth = 3 ∧
    (rx ex_ent ex_env 0 ex_sink (ex_build 3 5 2)).1.from_ = 3 :=
  ⟨by decide, by decide, by decide, by decide,
   ((rx_sink_build ex_ent ex_env 0 ex_sink (ex_build 3 5 2) (by decide) (by decide)).2.1
      (by decide)).1,
   ((rx_sink_build ex_ent ex_env 0 ex_sink (ex_build 3 5 2) (by decide) (by decide)).2.1
      (by decide)).2⟩

/-! ## C22: the sink does not record what it delivers -/

/-- The variable `fwd` does not depend on the received counter. -/
theorem rx_data_fwd_recv (nd : node_private) (header : packet_header) (k : Int) :
    rx_data_fwd { nd with no_packet_recv := k } header = rx_data_fwd nd header := rfl

theorem rx_data_fwd_two_cases (nd : node_private) (header : packet_header)
    (h : rx_data_fwd nd header = 2) :
    nd.type ≠ SENSOR ∧ nd.node_status = NODE_ON ∧ header.p_depth > nd.depth ∧
      check_seq nd header.p_seqno = 1 := by
  unfold rx_data_fwd at h
  split_ifs at h with h1 h2 h3
  · simp at h
  · exact ⟨h3, h1.2, h1.1, h2.2⟩
  all_goals simp at h

/-- C22. When `rx` delivers a DATA packet (`fwd = 2`, which it does only at a
node that is not a sensor), the Sequence Cache, the Forward Buffer and its
length are unchanged and the only field that changes is the received counter,
which grows by one; the sequence number is still reported absent from the
cache. Hence the same packet received again at once is delivered again, and the
received counter has grown by two. -/
theorem rx_sink_no_record (ent : entitydata) (e1 e2 : env) (c_node : Int)
    (nd : node_private) (header : packet_header)
    (htype : header.p_type = DATA) (hf : rx_data_fwd nd header = 2) :
    nd.type ≠ SENSOR ∧
    (rx ent e1 c_node nd header).1 = { nd with no_packet_recv := nd.no_packet_recv + 1 } ∧
    (rx ent e1 c_node nd header).1.seq = nd.seq ∧
    (rx ent e1 c_node nd header).1.seq_pointer = nd.seq_pointer ∧
    (rx ent e1 c_node nd header).1.p = nd.p ∧
    (rx ent e1 c_node nd header).1.buffer_pointer = nd.buffer_pointer ∧
    (rx ent e1 c_node nd header).1.no_packet_recv = nd.no_packet_recv + 1 ∧
    check_seq (rx ent e1 c_node nd header).1 header.p_seqno = 1 ∧
    rx_data_fwd (rx ent e1 c_node nd header).1 header = 2 ∧
    (rx ent e2 c_node (rx ent e1 c_node nd header).1 header).1.no_packet_recv =
      nd.no_packet_recv + 2 ∧
    (rx ent e2 c_node (rx ent e1 c_node nd header).1 header).1.seq = nd.seq := by
  obtain ⟨hns, _, _, hfresh⟩ := rx_data_fwd_two_cases nd header hf
  have h1 := rx_deliver_effect ent e1 c_node nd header htype hf
  have hf2 : rx_data_fwd { nd with no_packet_recv := nd.no_packet_recv + 1 } header = 2 :=
    (rx_data_fwd_recv nd header _).trans hf
  have h2 := rx_deliver_effect ent e2 c_node _ header htype hf2
  rw [h1]
  refine ⟨hns, rfl, rfl, rfl, rfl, rfl, rfl, hfresh, hf2, ?_, ?_⟩
  · rw [h2]
    show nd.no_packet_recv + 1 + 1 = nd.no_packet_recv + 2
    omega
  · rw [h2]

/-- Witness for C22: the sink delivers the relayed packet of sequence number 7
twice in a row. -/
theorem rx_sink_no_record_witness :
    ex_relayed7.p_type = DATA ∧ rx_data_fwd ex_sink ex_relayed7 = 2 ∧
    ex_sink.no_packet_recv = 0 ∧
    rx_data_fwd (rx ex_ent ex_env 0 ex_sink ex_relayed7).1 ex_relayed7 = 2 ∧
    (rx ex_ent ex_env 0 (rx ex_ent ex_env 0 ex_sink ex_relayed7).1 ex_relayed7).1.no_packet_recv =
      ex_sink.no_packet_recv + 2 :=
  ⟨by decide, by decide, by decide,
   (rx_sink_no_record ex_ent ex_env ex_env 0 ex_sink ex_relayed7 (by decide)
      (by decide)).2.2.2.2.2.2.2.2.1,
   (rx_sink_no_record ex_ent ex_env ex_env 0 ex_sink ex_relayed7 (by decide)
      (by decide)).2.2.2.2.2.2.2.2.2.1⟩

end GR
